import Mathlib

/-!
Verification development for the DDS container codec of the
Blender-DDS-Addon repository (`directx/dds.py`, `directx/dxgi_format.py`).

The Python source is shallowly embedded:
* ctypes structs become Lean structures over `Nat` fields (all fields are
  little-endian unsigned integers in the source; values are kept as `Nat`,
  with an explicit `% 2 ^ 32` where the source stores a computed value back
  into a `c_uint32` field);
* `c_char * 4` fields (`fourCC`, `magic`, ...) are kept as the raw list of
  4 bytes; ctypes truncates the value at the first NUL byte on attribute
  access, which is modelled by `fourCCVal` (`takeWhile (· ≠ 0)`);
* Python exceptions become `Except PyError`;
* a DDS file's byte stream is modelled at field granularity by `FileImage`:
  the fixed 124-byte header block, the 20 bytes following it read as a DX10
  header (consumed by the reader only when the pixel format designates
  DX10), and the remaining payload bytes.
-/

/-- Python exceptions raised by the embedded code: `RuntimeError` with its
message, the `TypeError` raised by `list + str` concatenation, the
`ZeroDivisionError` raised by `//` with a zero divisor, and the
`IndexError` raised by indexing an empty list. -/
inductive PyError where
  | runtimeError (msg : String)
  | typeError
  | zeroDivisionError
  | indexError
deriving DecidableEq, Repr

deriving instance DecidableEq for Except

/-- Boolean substring test, modelling Python's `sub in s` for strings:
`sub` occurs contiguously somewhere in `s`. -/
def strContains (s sub : String) : Bool :=
  (List.range (s.toList.length + 1)).any
    (fun i => sub.toList.isPrefixOf (s.toList.drop i))

/-- Split a character list at every occurrence of `c`, modelling Python's
`str.split(sep)` for a one-character separator (empty segments kept). -/
def splitOnChar (c : Char) : List Char → List (List Char)
  | [] => [[]]
  | a :: rest =>
    match splitOnChar c rest with
    | [] => [[a]]
    | h :: t => if a == c then [] :: h :: t else (a :: h) :: t

/-- Parse a character list as a decimal numeral, modelling Python's
`int(s)` on the digit strings it is applied to (`none` where `int` would
raise `ValueError`). -/
def charsToNat : List Char → Option Nat
  | [] => none
  | l =>
    if l.all (fun ch => ch.isDigit) then
      some (l.foldl (fun acc ch => acc * 10 + (ch.toNat - 48)) 0)
    else none

/-- Decode a list of byte values as a string (Python `bytes.decode()`). -/
def asciiString (l : List Nat) : String :=
  String.mk (l.map Char.ofNat)

/-- Ceiling division on naturals, modelling `math.ceil(a / b)`: for the
`u32` field ranges and block sizes (`1 ≤ b ≤ 12`) the float quotient is
close enough to exact that its ceiling equals the integer ceiling. -/
def ceilPyDiv (a b : Nat) : Nat :=
  (a + b - 1) / b

namespace DXGI_FORMAT

/-- Transcription of the `DXGI_FORMAT` enum of `dxgi_format.py`:
every member name paired with its numeric value. -/
def pairs : List (String × Nat) := [
  ("UNKNOWN", 0),
  ("R32G32B32A32_TYPELESS", 1),
  ("R32G32B32A32_FLOAT", 2),
  ("R32G32B32A32_UINT", 3),
  ("R32G32B32A32_SINT", 4),
  ("R32G32B32_TYPELESS", 5),
  ("R32G32B32_FLOAT", 6),
  ("R32G32B32_UINT", 7),
  ("R32G32B32_SINT", 8),
  ("R16G16B16A16_TYPELESS", 9),
  ("R16G16B16A16_FLOAT", 10),
  ("R16G16B16A16_UNORM", 11),
  ("R16G16B16A16_UINT", 12),
  ("R16G16B16A16_SNORM", 13),
  ("R16G16B16A16_SINT", 14),
  ("R32G32_TYPELESS", 15),
  ("R32G32_FLOAT", 16),
  ("R32G32_UINT", 17),
  ("R32G32_SINT", 18),
  ("R32G8X24_TYPELESS", 19),
  ("D32_FLOAT_S8X24_UINT", 20),
  ("R32_FLOAT_X8X24_TYPELESS", 21),
  ("X32_TYPELESS_G8X24_UINT", 22),
  ("R10G10B10A2_TYPELESS", 23),
  ("R10G10B10A2_UNORM", 24),
  ("R10G10B10A2_UINT", 25),
  ("R11G11B10_FLOAT", 26),
  ("R8G8B8A8_TYPELESS", 27),
  ("R8G8B8A8_UNORM", 28),
  ("R8G8B8A8_UNORM_SRGB", 29),
  ("R8G8B8A8_UINT", 30),
  ("R8G8B8A8_SNORM", 31),
  ("R8G8B8A8_SINT", 32),
  ("R16G16_TYPELESS", 33),
  ("R16G16_FLOAT", 34),
  ("R16G16_UNORM", 35),
  ("R16G16_UINT", 36),
  ("R16G16_SNORM", 37),
  ("R16G16_SINT", 38),
  ("R32_TYPELESS", 39),
  ("D32_FLOAT", 40),
  ("R32_FLOAT", 41),
  ("R32_UINT", 42),
  ("R32_SINT", 43),
  ("R24G8_TYPELESS", 44),
  ("D24_UNORM_S8_UINT", 45),
  ("R24_UNORM_X8_TYPELESS", 46),
  ("X24_TYPELESS_G8_UINT", 47),
  ("R8G8_TYPELESS", 48),
  ("R8G8_UNORM", 49),
  ("R8G8_UINT", 50),
  ("R8G8_SNORM", 51),
  ("R8G8_SINT", 52),
  ("R16_TYPELESS", 53),
  ("R16_FLOAT", 54),
  ("D16_UNORM", 55),
  ("R16_UNORM", 56),
  ("R16_UINT", 57),
  ("R16_SNORM", 58),
  ("R16_SINT", 59),
  ("R8_TYPELESS", 60),
  ("R8_UNORM", 61),
  ("R8_UINT", 62),
  ("R8_SNORM", 63),
  ("R8_SINT", 64),
  ("A8_UNORM", 65),
  ("R1_UNORM", 66),
  ("R9G9B9E5_SHAREDEXP", 67),
  ("R8G8_B8G8_UNORM", 68),
  ("G8R8_G8B8_UNORM", 69),
  ("BC1_TYPELESS", 70),
  ("BC1_UNORM", 71),
  ("BC1_UNORM_SRGB", 72),
  ("BC2_TYPELESS", 73),
  ("BC2_UNORM", 74),
  ("BC2_UNORM_SRGB", 75),
  ("BC3_TYPELESS", 76),
  ("BC3_UNORM", 77),
  ("BC3_UNORM_SRGB", 78),
  ("BC4_TYPELESS", 79),
  ("BC4_UNORM", 80),
  ("BC4_SNORM", 81),
  ("BC5_TYPELESS", 82),
  ("BC5_UNORM", 83),
  ("BC5_SNORM", 84),
  ("B5G6R5_UNORM", 85),
  ("B5G5R5A1_UNORM", 86),
  ("B8G8R8A8_UNORM", 87),
  ("B8G8R8X8_UNORM", 88),
  ("R10G10B10_XR_BIAS_A2_UNORM", 89),
  ("B8G8R8A8_TYPELESS", 90),
  ("B8G8R8A8_UNORM_SRGB", 91),
  ("B8G8R8X8_TYPELESS", 92),
  ("B8G8R8X8_UNORM_SRGB", 93),
  ("BC6H_TYPELESS", 94),
  ("BC6H_UF16", 95),
  ("BC6H_SF16", 96),
  ("BC7_TYPELESS", 97),
  ("BC7_UNORM", 98),
  ("BC7_UNORM_SRGB", 99),
  ("AYUV", 100),
  ("Y410", 101),
  ("Y416", 102),
  ("NV12", 103),
  ("P010", 104),
  ("P016", 105),
  ("OPAQUE_420", 106),
  ("YUY2", 107),
  ("Y210", 108),
  ("Y216", 109),
  ("NV11", 110),
  ("AI44", 111),
  ("IA44", 112),
  ("P8", 113),
  ("A8P8", 114),
  ("B4G4R4A4_UNORM", 115),
  ("P208", 130),
  ("V208", 131),
  ("V408", 132),
  ("ASTC_4X4_TYPELESS", 133),
  ("ASTC_4X4_UNORM", 134)]

/-- Member name of a `DXGI_FORMAT` value (Python `DXGI_FORMAT(v).name`).
Values outside the enum give the empty string (Python would raise there;
all values reaching this function in the embedded code are enum members). -/
def name (v : Nat) : String :=
  ((pairs.find? (fun p => p.2 == v)).map (fun p => p.1)).getD ""

/-- Embedding of `DXGI_FORMAT.is_valid_format`: membership of a name in
the enum. -/
def is_valid_format (fmt_name : String) : Bool :=
  pairs.any (fun p => p.1 == fmt_name)

/-- Values of all enum members, for the membership test in
`DX10Header.get_dxgi`. -/
def values : List Nat := pairs.map (fun p => p.2)

def UNKNOWN : Nat := 0
def B8G8R8A8_UNORM : Nat := 87
def BC1_UNORM : Nat := 71
def R8G8B8A8_UNORM : Nat := 28

/-- Embedding of `DXGI_FORMAT.get_signed`. The source computes
`"_".join(splitted[:-1] + new_num_types[num_type])`, which concatenates a
list with a `str`; whenever `num_type` is a key of `new_num_types`
(`"UNORM"` or `"UINT"`) this raises `TypeError` before `join` is reached.
For any other numeric suffix the format is returned unchanged. -/
def get_signed (fmt : Nat) : Except PyError Nat :=
  let nm := name fmt
  let splitted := splitOnChar (Char.ofNat 95) nm.toList
  let num_type := splitted.getLastD []
  if num_type == "UNORM".toList || num_type == "UINT".toList then
    .error .typeError
  else
    .ok fmt

end DXGI_FORMAT

/-- Embedding of `FOURCC_TO_DXGI` (`dxgi_format.py`): lists of fourCC byte
strings paired with the DXGI format value they resolve to.
`int_to_byte n` entries are single-byte strings. -/
def FOURCC_TO_DXGI : List (List (List Nat) × Nat) := [
  ([[68, 88, 84, 49]], 71),
  ([[68, 88, 84, 50], [68, 88, 84, 51]], 74),
  ([[68, 88, 84, 52], [68, 88, 84, 53]], 77),
  ([[65, 84, 73, 49], [66, 67, 52, 85], [51, 68, 67, 49]], 80),
  ([[65, 84, 73, 50], [66, 67, 53, 85], [51, 68, 67, 50]], 83),
  ([[66, 67, 52, 83]], 81),
  ([[66, 67, 53, 83]], 84),
  ([[66, 67, 54, 72]], 95),
  ([[66, 67, 55, 76], [66, 67, 55]], 98),
  ([[82, 71, 66, 71]], 68),
  ([[71, 82, 71, 66]], 69),
  ([[89, 85, 89, 50], [85, 89, 86, 89]], 107),
  ([[36]], 11),
  ([[110]], 13),
  ([[111]], 54),
  ([[112]], 34),
  ([[113]], 10),
  ([[114]], 41),
  ([[115]], 16),
  ([[116]], 2)]

/-- Embedding of `BITMASK_TO_DXGI` (`dxgi_format.py`): RGBA bit-mask
4-tuples paired with the DXGI format value they resolve to. -/
def BITMASK_TO_DXGI : List (List Nat × Nat) := [
  ([0x00ff0000, 0x0000ff00, 0x000000ff, 0xff000000], 87),
  ([0x00ff0000, 0x0000ff00, 0x000000ff, 0], 88),
  ([0x000000ff, 0x0000ff00, 0x00ff0000, 0xff000000], 28),
  ([0x3ff00000, 0x000ffc00, 0x000003ff, 0xc0000000], 24),
  ([0x0000ffff, 0xffff0000, 0, 0], 35),
  ([0xffffffff, 0, 0, 0], 41),
  ([0x7c00, 0x03e0, 0x001f, 0x8000], 86),
  ([0xf800, 0x07e0, 0x001f, 0], 85),
  ([0x0f00, 0x00f0, 0x000f, 0xf000], 115),
  ([0x00ff, 0, 0, 0xff00], 49),
  ([0xffff, 0, 0, 0], 56),
  ([0xff, 0, 0, 0], 61),
  ([0, 0, 0, 0xff], 65)]

/-- Embedding of `UNCANONICAL_FOURCC` (`dds.py`): fourCC values of
non-standard formats, as NUL-truncated byte strings. -/
def UNCANONICAL_FOURCC : List (List Nat) := [
  [69, 84, 67],
  [69, 84, 67, 49],
  [69, 84, 67, 50],
  [69, 84, 50, 65],
  [80, 84, 67, 50],
  [80, 84, 67, 52],
  [65, 84, 67],
  [65, 84, 67, 65],
  [65, 84, 67, 69],
  [65, 84, 67, 73],
  [65, 83, 58, 53]]

namespace PF_FLAGS
def FOURCC : Nat := 0x00000004
def BUMPDUDV : Nat := 0x00080000
end PF_FLAGS

/-- Embedding of the `DDSPixelFormat` ctypes struct: the 32-byte legacy
pixel-format sub-header. `fourCC` holds the raw 4 bytes. -/
structure DDSPixelFormat where
  size : Nat
  flags : Nat
  fourCC : List Nat
  bit_count : Nat
  bit_mask : List Nat
deriving DecidableEq, Repr

namespace DDSPixelFormat

/-- Value produced by `DDSPixelFormat.__init__`: the DX10 sentinel pixel
format the writer emits. -/
def init : DDSPixelFormat :=
  { size := 32, flags := PF_FLAGS.FOURCC, fourCC := [68, 88, 49, 48],
    bit_count := 0, bit_mask := [0, 0, 0, 0] }

/-- Attribute access on the `c_char * 4` field `fourCC`: ctypes truncates
the raw bytes at the first NUL. -/
def fourCCVal (pf : DDSPixelFormat) : List Nat :=
  pf.fourCC.takeWhile (fun b => b ≠ 0)

/-- Embedding of `DDSPixelFormat.is_bit_mask`: element-wise comparison of
the stored mask with a catalog mask. -/
def is_bit_mask (pf : DDSPixelFormat) (mask : List Nat) : Bool :=
  (pf.bit_mask.zip mask).all (fun p => p.1 == p.2)

/-- Embedding of `DDSPixelFormat.is_canonical`. -/
def is_canonical (pf : DDSPixelFormat) : Bool :=
  !(UNCANONICAL_FOURCC.contains pf.fourCCVal)

/-- Embedding of `DDSPixelFormat.is_dx10`. -/
def is_dx10 (pf : DDSPixelFormat) : Bool :=
  pf.fourCCVal == [68, 88, 49, 48]

/-- FourCC lookup step of `get_dxgi`: first entry of `FOURCC_TO_DXGI`
whose fourCC list contains the stored fourCC. -/
def lookupFourCC (cc : List Nat) : Option Nat :=
  FOURCC_TO_DXGI.findSome? (fun p => if p.1.contains cc then some p.2 else none)

/-- Bitmask detection step of `get_dxgi`: the source loops over
`BITMASK_TO_DXGI` overwriting `detected_dxgi` on every match, so the last
matching entry wins. -/
def detectBitmask (pf : DDSPixelFormat) : Option Nat :=
  BITMASK_TO_DXGI.foldl (fun acc p => if pf.is_bit_mask p.1 then some p.2 else acc) none

/-- Embedding of `DDSPixelFormat.get_dxgi`: legacy format resolution.
Raises for a non-canonical fourCC; tries the fourCC table when the FOURCC
flag is set; then the bitmask table (falling back to `B8G8R8A8_UNORM`
with only a printed warning when nothing matches); applies the
signed-format correction when the BUMPDUDV flag is set. -/
def get_dxgi (pf : DDSPixelFormat) : Except PyError Nat :=
  if pf.is_canonical = false then
    .error (.runtimeError ("Non-standard fourCC detected. (" ++ asciiString pf.fourCCVal ++ ")"))
  else
    let viaCC : Option Nat :=
      if pf.flags &&& PF_FLAGS.FOURCC ≠ 0 then lookupFourCC pf.fourCCVal else none
    match viaCC with
    | some dxgi => .ok dxgi
    | none =>
      match pf.detectBitmask with
      | none => .ok DXGI_FORMAT.B8G8R8A8_UNORM
      | some detected =>
        if pf.flags &&& PF_FLAGS.BUMPDUDV ≠ 0 then DXGI_FORMAT.get_signed detected
        else .ok detected

end DDSPixelFormat

/-- Embedding of the `DX10Header` ctypes struct (the DXT10 extension
sub-header). -/
structure DX10Header where
  dxgi_format : Nat
  resource_dimension : Nat
  misc_flags : Nat
  array_size : Nat
  misc_flags2 : Nat
deriving DecidableEq, Repr

namespace DX10Header

/-- Freshly constructed `DX10Header()`: ctypes zero-initialises every
field. -/
def init : DX10Header :=
  { dxgi_format := 0, resource_dimension := 0, misc_flags := 0,
    array_size := 0, misc_flags2 := 0 }

/-- Embedding of `DX10Header.get_dxgi`: the stored value must be a member
of the `DXGI_FORMAT` enum. -/
def get_dxgi (h : DX10Header) : Except PyError Nat :=
  if DXGI_FORMAT.values.contains h.dxgi_format then .ok h.dxgi_format
  else .error (.runtimeError ("Unsupported DXGI format detected. (" ++ toString h.dxgi_format ++ ")"))

/-- Embedding of `DX10Header.update`: the source overwrites every field of
`self`, so the functional version needs no old value. -/
def update (dxgi_format : Nat) (is_cube is_3d : Bool) (array_size : Nat) : DX10Header :=
  { dxgi_format := dxgi_format,
    resource_dimension := 3 + (if is_3d then 1 else 0),
    misc_flags := 4 * (if is_cube then 1 else 0),
    array_size := array_size,
    misc_flags2 := 0 }

/-- Embedding of `DX10Header.is_array`. -/
def is_array (h : DX10Header) : Bool :=
  h.array_size > 1

end DX10Header

namespace DDS_FLAGS
def CAPS : Nat := 0x1
def HEIGHT : Nat := 0x2
def WIDTH : Nat := 0x4
def PITCH : Nat := 0x8
def PIXELFORMAT : Nat := 0x1000
def MIPMAPCOUNT : Nat := 0x20000
def LINEARSIZE : Nat := 0x80000
def DEPTH : Nat := 0x800000
def DEFAULT : Nat := CAPS ||| HEIGHT ||| WIDTH ||| PIXELFORMAT ||| MIPMAPCOUNT

/-- Embedding of `DDS_FLAGS.get_flags`. -/
def get_flags (is_compressed is_3d : Bool) : Nat :=
  let flags := DEFAULT
  let flags := if is_compressed then flags ||| LINEARSIZE else flags ||| PITCH
  if is_3d then flags ||| DEPTH else flags

/-- Embedding of `DDS_FLAGS.has_pitch`. -/
def has_pitch (flags : Nat) : Bool :=
  flags &&& PITCH > 0
end DDS_FLAGS

namespace DDS_CAPS
def CUBEMAP : Nat := 0x8
def MIPMAP : Nat := 0x400008
def REQUIRED : Nat := 0x1000

/-- Embedding of `DDS_CAPS.get_caps`. -/
def get_caps (has_mips is_cube : Bool) : Nat :=
  let caps := REQUIRED
  let caps := if has_mips then caps ||| MIPMAP else caps
  if is_cube then caps ||| CUBEMAP else caps
end DDS_CAPS

namespace DDS_CAPS2
def CUBEMAP : Nat := 0x200
def CUBEMAP_FULL : Nat := 0xFE00
def VOLUME : Nat := 0x200000

/-- Embedding of `DDS_CAPS2.get_caps2`. -/
def get_caps2 (is_cube is_3d : Bool) : Nat :=
  let caps2 := 0
  let caps2 := if is_cube then caps2 ||| CUBEMAP_FULL else caps2
  if is_3d then caps2 ||| VOLUME else caps2

/-- Embedding of `DDS_CAPS2.is_cube`. -/
def is_cube (caps2 : Nat) : Bool :=
  caps2 &&& CUBEMAP > 0

/-- Embedding of `DDS_CAPS2.is_3d`. -/
def is_3d (caps2 : Nat) : Bool :=
  caps2 &&& VOLUME > 0
end DDS_CAPS2

/-- Serialized fields of the `DDSHeader` ctypes struct: the fixed 124-byte
header block (magic through reserved2), in source order. -/
structure DDSHeaderData where
  magic : List Nat
  head_size : Nat
  flags : Nat
  height : Nat
  width : Nat
  pitch_or_linear_size : Nat
  depth : Nat
  mipmap_num : Nat
  reserved : List Nat
  tool_name : List Nat
  null : Nat
  pixel_format : DDSPixelFormat
  caps : Nat
  caps2 : Nat
  reserved2 : List Nat
deriving DecidableEq, Repr

/-- In-memory `DDSHeader` object: the serialized fields plus the
non-serialized attributes set by `__init__`/`read` (`dx10_header` and the
resolved `dxgi_format`, kept as the enum's numeric value). -/
structure DDSHeader where
  data : DDSHeaderData
  dx10_header : DX10Header
  dxgi_format : Nat
deriving DecidableEq, Repr

namespace DDSHeader

def MAGIC : List Nat := [68, 68, 83, 32]

/-- Value produced by `DDSHeader.__init__` (ctypes zero-initialises the
fields `__init__` does not set). -/
def init : DDSHeader :=
  { data := { magic := MAGIC, head_size := 124, flags := 0, height := 0,
              width := 0, pitch_or_linear_size := 0, depth := 0,
              mipmap_num := 1, reserved := [0, 0, 0, 0, 0, 0, 0, 0, 0],
              tool_name := [66, 76, 78, 68], null := 0,
              pixel_format := DDSPixelFormat.init, caps := 0, caps2 := 0,
              reserved2 := [0, 0, 0] },
    dx10_header := DX10Header.init,
    dxgi_format := DXGI_FORMAT.UNKNOWN }

/-- Embedding of `DDSHeader.get_format_as_str`. -/
def get_format_as_str (h : DDSHeader) : String :=
  DXGI_FORMAT.name h.dxgi_format

/-- Embedding of `DDSHeader.is_compressed`. -/
def is_compressed (h : DDSHeader) : Bool :=
  strContains h.get_format_as_str "BC" || strContains h.get_format_as_str "ASTC"

/-- Embedding of `DDSHeader.has_mips`. -/
def has_mips (h : DDSHeader) : Bool :=
  h.data.mipmap_num > 1

/-- Embedding of `DDSHeader.is_cube`. -/
def is_cube (h : DDSHeader) : Bool :=
  DDS_CAPS2.is_cube h.data.caps2

/-- Embedding of `DDSHeader.is_3d`. -/
def is_3d (h : DDSHeader) : Bool :=
  h.data.depth > 1

/-- Embedding of `DDSHeader.get_array_size`. -/
def get_array_size (h : DDSHeader) : Nat :=
  h.dx10_header.array_size

/-- Embedding of `DDSHeader.get_num_slices`:
`array_size * depth * (1 + is_cube * 5)`. -/
def get_num_slices (h : DDSHeader) : Nat :=
  h.get_array_size * h.data.depth * (1 + (if h.is_cube then 1 else 0) * 5)

/-- Embedding of `DDSHeader.get_bpp`. The source computes
`pitch_or_linear_size // width`, then `// height` when the PITCH flag is
absent; Python's `//` raises `ZeroDivisionError` whenever the divisor
field is 0, which the `Except` makes explicit. -/
def get_bpp (h : DDSHeader) : Except PyError Nat :=
  if h.data.width = 0 then .error .zeroDivisionError
  else
    let bpp := h.data.pitch_or_linear_size / h.data.width
    if DDS_FLAGS.has_pitch h.data.flags then .ok bpp
    else if h.data.height = 0 then .error .zeroDivisionError
    else .ok (bpp / h.data.height)

/-- Embedding of `DDSHeader.update`: sets `depth`, then recomputes the
derived fields `flags`, `pitch_or_linear_size` (stored into a `c_uint32`,
hence the `% 2 ^ 32`), `caps`, `caps2`, the DX10 sub-header, and resets
the pixel format to the DX10 sentinel. `get_bpp` is evaluated before
`flags` is overwritten, as in the source, and its `ZeroDivisionError`
propagates (in the source the raise happens after `self.depth` has
already been assigned in place; the functional embedding reports only
the propagated exception). -/
def update (h : DDSHeader) (depth array_size : Nat) : Except PyError DDSHeader :=
  let h1 : DDSHeader := { h with data := { h.data with depth := depth } }
  match h1.get_bpp with
  | .error e => .error e
  | .ok bpp =>
    let flags := DDS_FLAGS.get_flags h1.is_compressed h1.is_3d
    let pitch :=
      if DDS_FLAGS.has_pitch flags then (h1.data.width * bpp) % 2 ^ 32
      else (h1.data.width * h1.data.height * bpp) % 2 ^ 32
    let data2 : DDSHeaderData :=
      { h1.data with
        flags := flags,
        pitch_or_linear_size := pitch,
        caps := DDS_CAPS.get_caps h1.has_mips h1.is_cube,
        caps2 := DDS_CAPS2.get_caps2 h1.is_cube h1.is_3d,
        pixel_format := DDSPixelFormat.init }
    .ok { data := data2,
          dx10_header := DX10Header.update h.dxgi_format h1.is_cube h1.is_3d array_size,
          dxgi_format := h.dxgi_format }

/-- Embedding of `DDSHeader.disassemble`. -/
def disassemble (h : DDSHeader) : Except PyError DDSHeader :=
  h.update 1 1

/-- Embedding of `DDSHeader.assemble`. -/
def assemble (h : DDSHeader) (is_array : Bool) (size : Nat) : Except PyError DDSHeader :=
  if is_array then h.update 1 size else h.update size 1

/-- Embedding of `DDSHeader.get_block_size`. The `int(...)` parses of the
ASTC block dimensions are modelled with `String.toNat?` (they succeed for
every ASTC name in the catalog, the only names reaching that branch). -/
def get_block_size (h : DDSHeader) : Nat × Nat :=
  let fmt := h.get_format_as_str
  if strContains fmt "ASTC" then
    let parsed := splitOnChar (Char.ofNat 88) ((splitOnChar (Char.ofNat 95) fmt.toList).getD 1 [])
    ((charsToNat (parsed.getD 0 [])).getD 0, (charsToNat (parsed.getD 1 [])).getD 0)
  else if strContains fmt "BC" then (4, 4)
  else (1, 1)

/-- Embedding of `DDSHeader.get_byte_per_block`: supports only the ASTC,
B8G8R8A8, R16G16B16A16 and R32G32B32A32 families and raises
`RuntimeError` for every other format (BC formats included). -/
def get_byte_per_block (h : DDSHeader) : Except PyError Nat :=
  let fmt := h.get_format_as_str
  if strContains fmt "ASTC" then .ok 16
  else if strContains fmt "B8G8R8A8" then .ok 4
  else if strContains fmt "R16G16B16A16" then .ok 8
  else if strContains fmt "R32G32B32A32" then .ok 16
  else .error (.runtimeError ("get_byte_per_block() does not support " ++ fmt ++ "."))

end DDSHeader

/-- One entry of the list built by `DDSHeader.get_mip_sizes`: the source
appends `[width, height, bin_pos, bin_size]` per mip level. -/
structure MipSize where
  width : Nat
  height : Nat
  bin_pos : Nat
  bin_size : Nat
deriving DecidableEq, Repr, Inhabited

/-- Loop of `DDSHeader.get_mip_sizes`: one entry per remaining level,
halving the dimensions (floor), clamping at 1, and accumulating the
byte position. -/
def mipSizesAux (block_x block_y byte_per_block : Nat) :
    Nat → Nat → Nat → Nat → List MipSize
  | 0, _, _, _ => []
  | n + 1, w, h, pos =>
    let bin_size := ceilPyDiv w block_x * ceilPyDiv h block_y * byte_per_block
    ⟨w, h, pos, bin_size⟩ ::
      mipSizesAux block_x block_y byte_per_block n (max (w / 2) 1) (max (h / 2) 1) (pos + bin_size)

/-- Embedding of `DDSHeader.get_mip_sizes`. -/
def DDSHeader.get_mip_sizes (h : DDSHeader) : Except PyError (List MipSize) :=
  match h.get_byte_per_block with
  | .error e => .error e
  | .ok bpb =>
    .ok (mipSizesAux h.get_block_size.1 h.get_block_size.2 bpb
          h.data.mipmap_num h.data.width h.data.height 0)

/-- Field-granularity view of a DDS file's byte stream: the fixed
124-byte header block, the 20 bytes that follow it read as a DX10 header
(the reader consumes them only when the pixel format designates DX10;
otherwise they are not part of the stream and the field carries no
information), and the payload bytes after the consumed header. -/
structure FileImage where
  data : DDSHeaderData
  dx10 : DX10Header
  payload : List Nat
deriving DecidableEq, Repr

/-- Format-resolution step of `DDSHeader.read`: the header object as it
stands after `readinto`, the mip-count coercion
(`head.mipmap_num += head.mipmap_num == 0`; no such coercion is applied
to `depth`) and the DXT10-or-legacy format detection, before the
validation checks. -/
def DDSHeader.readStep (img : FileImage) : Except PyError DDSHeader :=
  let d : DDSHeaderData :=
    { img.data with
      mipmap_num := img.data.mipmap_num + (if img.data.mipmap_num = 0 then 1 else 0) }
  if d.pixel_format.is_dx10 then
    match img.dx10.get_dxgi with
    | .error e => .error e
    | .ok dxgi => .ok { data := d, dx10_header := img.dx10, dxgi_format := dxgi }
  else
    match d.pixel_format.get_dxgi with
    | .error e => .error e
    | .ok dxgi =>
      .ok { data := d,
            dx10_header := DX10Header.update dxgi (DDS_CAPS2.is_cube d.caps2) (d.depth > 1) 1,
            dxgi_format := dxgi }

/-- Embedding of `DDSHeader.read`: the resolution step above, then — in
source order — the rejection of bad magic/size and of 1D resource
dimensions. -/
def DDSHeader.read (img : FileImage) : Except PyError DDSHeader :=
  match DDSHeader.readStep img with
  | .error e => .error e
  | .ok head =>
    if head.data.magic ≠ DDSHeader.MAGIC ∨ head.data.head_size ≠ 124 then
      .error (.runtimeError "Not DDS file.")
    else if head.dx10_header.resource_dimension = 2 then
      .error (.runtimeError "1D textures are unsupported.")
    else .ok head

/-- Embedding of the `DDS` object: a header plus the ordered list of
per-surface slice buffers. -/
structure DDS where
  header : DDSHeader
  slice_bin_list : List (List Nat)
deriving DecidableEq, Repr

/-- Successive `f.read(slice_size)` calls of `DDS.load`: each call takes
the next `slice_size` bytes of the remaining stream. -/
def readChunks (payload : List Nat) (slice_size : Nat) : Nat → List (List Nat)
  | 0 => []
  | n + 1 => payload.take slice_size :: readChunks (payload.drop slice_size) slice_size n

/-- Embedding of `DDS.load`: reads the header, then splits the remaining
bytes into `get_num_slices` reads of `data_size // num_slices` bytes
each. The source's `//` raises `ZeroDivisionError` when `num_slices` is
0; `Nat` division is total, so that case is made explicit. No
divisibility check is performed: a remainder is silently left unread. -/
def DDS.load (img : FileImage) : Except PyError DDS :=
  match DDSHeader.read img with
  | .error e => .error e
  | .ok header =>
    let data_size := img.payload.length
    let num_slices := header.get_num_slices
    if num_slices = 0 then .error .zeroDivisionError
    else .ok ⟨header, readChunks img.payload (data_size / num_slices) num_slices⟩

/-- Embedding of `DDS.save`: `DDSHeader.write` emits the fixed block as
is, then the DX10 sub-header iff the pixel format designates DX10
(when it does not, the `dx10` field of the image is not part of the
stream and is ignored by the reader), then every slice in order. -/
def DDS.save (d : DDS) : FileImage :=
  { data := d.header.data,
    dx10 := d.header.dx10_header,
    payload := d.slice_bin_list.flatten }

/-- Embedding of `DDS.get_disassembled_dds_list` (value-level view):
`new_dds_num` and `num_slices` are computed from the header before
`disassemble()` mutates it; every output container is built from the
mutated header and a contiguous slice window. A `ZeroDivisionError`
raised inside `disassemble()` (zero width, or zero height without the
PITCH flag) propagates before any output is built. Object identity is
modelled separately by `ddsDisassembleHeap`. -/
def DDS.get_disassembled_dds_list (d : DDS) : Except PyError (List DDS) :=
  let new_dds_num := d.header.data.depth * d.header.get_array_size
  let num_slices := 1 + 5 * (if d.header.is_cube then 1 else 0)
  match d.header.disassemble with
  | .error e => .error e
  | .ok h =>
    .ok ((List.range new_dds_num).map
      (fun i => ⟨h, (d.slice_bin_list.drop (i * num_slices)).take num_slices⟩))

/-- Check loop of `DDS.assemble` over `dds_list[1:]`: for each container,
a DXGI-format mismatch is reported first, then a width/height mismatch;
the first offending container stops the loop. -/
def assembleCheck (header : DDSHeader) : List DDS → Option PyError
  | [] => none
  | d :: rest =>
    if header.dxgi_format ≠ d.header.dxgi_format then
      some (.runtimeError "Failed to assemble dds files. DXGI formats should be the same")
    else if header.data.width ≠ d.header.data.width ∨ header.data.height ≠ d.header.data.height then
      some (.runtimeError "Failed to assemble dds files. Texture sizes should be the same")
    else assembleCheck header rest

/-- Embedding of `DDS.assemble`: takes the first container's header,
applies `DDSHeader.assemble` with the list length (a
`ZeroDivisionError` raised there — zero width, or zero height without
the PITCH flag — propagates before the mismatch loop runs), checks the
remaining containers, and concatenates every slice list in input order.
Indexing `dds_list[0]` of an empty list raises `IndexError`. -/
def DDS.assemble (dds_list : List DDS) (is_array : Bool) : Except PyError DDS :=
  match dds_list with
  | [] => .error .indexError
  | d0 :: rest =>
    match d0.header.assemble is_array (d0 :: rest).length with
    | .error e => .error e
    | .ok header =>
      match assembleCheck header rest with
      | some e => .error e
      | none => .ok ⟨header, ((d0 :: rest).map (fun d => d.slice_bin_list)).flatten⟩

/-- Embedding of `DDS.remove_mips`: computes the level-0 byte size from
the block grid (raising inside `get_byte_per_block` for unsupported
formats), sets the mip count to 1 and truncates every slice buffer. -/
def DDS.remove_mips (d : DDS) : Except PyError DDS :=
  match d.header.get_byte_per_block with
  | .error e => .error e
  | .ok bpb =>
    let bin_size := ceilPyDiv d.header.data.width d.header.get_block_size.1 *
      ceilPyDiv d.header.data.height d.header.get_block_size.2 * bpb
    .ok ⟨{ d.header with data := { d.header.data with mipmap_num := 1 } },
         d.slice_bin_list.map (fun b => b.take bin_size)⟩

/-- A `DDS` object as it lives in the Python heap: it holds a reference
into a store of header objects rather than a header value. -/
structure DDSRef where
  headerRef : Nat
  slice_bin_list : List (List Nat)
deriving DecidableEq, Repr

/-- Heap-level embedding of `DDS.get_disassembled_dds_list`, making
object identity explicit: the store is the heap of `DDSHeader` objects
and `d.headerRef` the input container's header reference. The source
mutates `self.header` in place via `disassemble()` and then passes
`self.header` — the same object — to every output `DDS`, so every output
carries the input's header reference. A `ZeroDivisionError` raised
inside `disassemble()` propagates and no output list is produced (the
source has by then assigned `depth` on the shared object; the exception
aborts the caller, so only the raise itself is observable). -/
def ddsDisassembleHeap (store : List DDSHeader) (d : DDSRef) :
    Except PyError (List DDSHeader × List DDSRef) :=
  let h := store.getD d.headerRef DDSHeader.init
  let new_dds_num := h.data.depth * h.get_array_size
  let num_slices := 1 + 5 * (if h.is_cube then 1 else 0)
  match h.disassemble with
  | .error e => .error e
  | .ok h2 =>
    .ok (store.set d.headerRef h2,
      (List.range new_dds_num).map
        (fun i => ⟨d.headerRef, (d.slice_bin_list.drop (i * num_slices)).take num_slices⟩))

/-- Validity of an in-memory container: header fields a well-formed DDS
file carries (correct magic and size, at least one mip level, a resolvable
format consistent with the stored `dxgi_format`, an `array_size` of 1 when
no DX10 sub-header is written), and a slice list consistent with the
header (one equal-length buffer per computed slice). -/
def DDS.isValidContainer (c : DDS) : Prop :=
  c.header.data.magic = DDSHeader.MAGIC ∧
  c.header.data.head_size = 124 ∧
  1 ≤ c.header.data.mipmap_num ∧
  (c.header.data.pixel_format.is_dx10 = true →
    c.header.dx10_header.get_dxgi = .ok c.header.dxgi_format ∧
    c.header.dx10_header.resource_dimension ≠ 2) ∧
  (c.header.data.pixel_format.is_dx10 = false →
    c.header.data.pixel_format.get_dxgi = .ok c.header.dxgi_format ∧
    c.header.get_array_size = 1) ∧
  0 < c.header.get_num_slices ∧
  c.slice_bin_list.length = c.header.get_num_slices ∧
  ∃ L, ∀ s ∈ c.slice_bin_list, s.length = L

/-! Concrete fixtures used by witnesses and counterexamples. -/

/-- Legacy pixel format with the `"DXT1"` fourCC and the FOURCC flag. -/
def dxt1PixelFormat : DDSPixelFormat :=
  ⟨32, 4, [68, 88, 84, 49], 0, [0, 0, 0, 0]⟩

/-- A 4x4 single-mip legacy `DXT1` (BC1_UNORM) container with one 8-byte
slice. -/
def c1DDS : DDS :=
  ⟨⟨⟨DDSHeader.MAGIC, 124, 0, 4, 4, 8, 1, 1, [0, 0, 0, 0, 0, 0, 0, 0, 0],
     [66, 76, 78, 68], 0, dxt1PixelFormat, 0x1000, 0, [0, 0, 0]⟩,
    ⟨71, 3, 0, 1, 0⟩, 71⟩,
   [[1, 2, 3, 4, 5, 6, 7, 8]]⟩

/-- A 4x4 `B8G8R8A8_UNORM` texture array of 2 elements with one 1-byte
slice per element. -/
def c2DDS : DDS :=
  ⟨⟨⟨DDSHeader.MAGIC, 124, 0, 4, 4, 16, 1, 1, [0, 0, 0, 0, 0, 0, 0, 0, 0],
     [66, 76, 78, 68], 0, DDSPixelFormat.init, 0x1000, 0, [0, 0, 0]⟩,
    ⟨87, 3, 0, 2, 0⟩, 87⟩,
   [[1], [2]]⟩

/-- A legacy `DXT1` file image with `depth = 2` (hence 2 computed slices)
and a 5-byte payload, which does not divide evenly by 2. -/
def c3Img : FileImage :=
  ⟨⟨DDSHeader.MAGIC, 124, 0, 4, 4, 8, 2, 1, [0, 0, 0, 0, 0, 0, 0, 0, 0],
    [66, 76, 78, 68], 0, dxt1PixelFormat, 0x1000, 0, [0, 0, 0]⟩,
   DX10Header.init, [1, 2, 3, 4, 5]⟩

/-- The header `DDSHeader.read` produces for `c3Img`. -/
def c3Head : DDSHeader :=
  ⟨⟨DDSHeader.MAGIC, 124, 0, 4, 4, 8, 2, 1, [0, 0, 0, 0, 0, 0, 0, 0, 0],
    [66, 76, 78, 68], 0, dxt1PixelFormat, 0x1000, 0, [0, 0, 0]⟩,
   ⟨71, 4, 0, 1, 0⟩, 71⟩

/-- An 8x8 `B8G8R8A8_UNORM` header with 4 mip levels. -/
def c4Header : DDSHeader :=
  ⟨⟨DDSHeader.MAGIC, 124, 0, 8, 8, 0, 1, 4, [0, 0, 0, 0, 0, 0, 0, 0, 0],
    [66, 76, 78, 68], 0, DDSPixelFormat.init, 0, 0, [0, 0, 0]⟩,
   ⟨87, 3, 0, 1, 0⟩, 87⟩

/-- Legacy pixel format with the bump/dudv flag set and the
`R8G8B8A8_UNORM` bitmask (whose signed-normalized counterpart
`R8G8B8A8_SNORM` is in the catalog). -/
def c5BumpPf : DDSPixelFormat :=
  ⟨32, 0x00080000, [0, 0, 0, 0], 32, [0x000000ff, 0x0000ff00, 0x00ff0000, 0xff000000]⟩

/-- A 64x64 `BC1_UNORM` container with 3 mip levels. -/
def c6BC1 : DDS :=
  ⟨⟨⟨DDSHeader.MAGIC, 124, 0, 64, 64, 2048, 1, 3, [0, 0, 0, 0, 0, 0, 0, 0, 0],
     [66, 76, 78, 68], 0, dxt1PixelFormat, 0x1000, 0, [0, 0, 0]⟩,
    ⟨71, 3, 0, 1, 0⟩, 71⟩,
   [[0, 1, 2, 3]]⟩

/-- A 4x4 `B8G8R8A8_UNORM` container with 2 mip levels and one 5-byte
slice. -/
def c6B8 : DDS :=
  ⟨⟨⟨DDSHeader.MAGIC, 124, 0, 4, 4, 16, 1, 2, [0, 0, 0, 0, 0, 0, 0, 0, 0],
     [66, 76, 78, 68], 0, DDSPixelFormat.init, 0, 0, [0, 0, 0]⟩,
    ⟨87, 3, 0, 1, 0⟩, 87⟩,
   [[9, 9, 9, 9, 9]]⟩

/-- A 4x4 `B8G8R8A8_UNORM` single-slice container. -/
def c7A : DDS :=
  ⟨⟨⟨DDSHeader.MAGIC, 124, 0, 4, 4, 16, 1, 1, [0, 0, 0, 0, 0, 0, 0, 0, 0],
     [66, 76, 78, 68], 0, DDSPixelFormat.init, 0x1000, 0, [0, 0, 0]⟩,
    ⟨87, 3, 0, 1, 0⟩, 87⟩,
   [[1, 1]]⟩

/-- A second 4x4 `B8G8R8A8_UNORM` single-slice container. -/
def c7B : DDS :=
  ⟨⟨⟨DDSHeader.MAGIC, 124, 0, 4, 4, 16, 1, 1, [0, 0, 0, 0, 0, 0, 0, 0, 0],
     [66, 76, 78, 68], 0, DDSPixelFormat.init, 0x1000, 0, [0, 0, 0]⟩,
    ⟨87, 3, 0, 1, 0⟩, 87⟩,
   [[2, 2]]⟩

/-- An 8x4 `B8G8R8A8_UNORM` container: same format as `c7A`, different
width. -/
def c7W : DDS :=
  ⟨⟨⟨DDSHeader.MAGIC, 124, 0, 4, 8, 32, 1, 1, [0, 0, 0, 0, 0, 0, 0, 0, 0],
     [66, 76, 78, 68], 0, DDSPixelFormat.init, 0x1000, 0, [0, 0, 0]⟩,
    ⟨87, 3, 0, 1, 0⟩, 87⟩,
   [[3, 3]]⟩

/-- A 4x4 `BC1_UNORM` container: same size as `c7A`, different format. -/
def c7F : DDS :=
  ⟨⟨⟨DDSHeader.MAGIC, 124, 0, 4, 4, 8, 1, 1, [0, 0, 0, 0, 0, 0, 0, 0, 0],
     [66, 76, 78, 68], 0, dxt1PixelFormat, 0x1000, 0, [0, 0, 0]⟩,
    ⟨71, 3, 0, 1, 0⟩, 71⟩,
   [[4, 4]]⟩

/-- A 4x4 `B8G8R8A8_UNORM` texture-array header with `array_size = 2`. -/
def c9Header : DDSHeader :=
  ⟨⟨DDSHeader.MAGIC, 124, 0, 4, 4, 16, 1, 1, [0, 0, 0, 0, 0, 0, 0, 0, 0],
    [66, 76, 78, 68], 0, DDSPixelFormat.init, 0x1000, 0, [0, 0, 0]⟩,
   ⟨87, 3, 0, 2, 0⟩, 87⟩

/-- A heap with the single header object `c9Header`. -/
def c9Store : List DDSHeader := [c9Header]

/-- A container object referencing the header at heap slot 0, with two
single-byte slices. -/
def c9Obj : DDSRef := ⟨0, [[1], [2]]⟩

/-- A legacy `DXT1` file image whose on-disk `depth` and `mipmap_num`
fields are both 0. -/
def c10Img : FileImage :=
  ⟨⟨DDSHeader.MAGIC, 124, 0, 4, 4, 8, 0, 0, [0, 0, 0, 0, 0, 0, 0, 0, 0],
    [66, 76, 78, 68], 0, dxt1PixelFormat, 0x1000, 0, [0, 0, 0]⟩,
   DX10Header.init, [1, 2, 3]⟩

/-- The header `DDSHeader.read` produces for `c10Img`: mip count coerced
to 1, depth left at 0. -/
def c10Head : DDSHeader :=
  ⟨⟨DDSHeader.MAGIC, 124, 0, 4, 4, 8, 0, 1, [0, 0, 0, 0, 0, 0, 0, 0, 0],
    [66, 76, 78, 68], 0, dxt1PixelFormat, 0x1000, 0, [0, 0, 0]⟩,
   ⟨71, 3, 0, 1, 0⟩, 71⟩

/-! Helper lemmas about the embedded operations. -/

theorem DDSHeader.get_bpp_ok_of_pos (h : DDSHeader)
    (hw : h.data.width ≠ 0) (hh : h.data.height ≠ 0) :
    ∃ bpp, h.get_bpp = .ok bpp := by
  simp only [DDSHeader.get_bpp]
  rw [if_neg hw, if_neg hh]
  split
  · exact ⟨_, rfl⟩
  · exact ⟨_, rfl⟩

theorem DDSHeader.update_ok (h : DDSHeader) (a b bpp : Nat)
    (hbpp : h.get_bpp = .ok bpp) :
    ∃ h2, h.update a b = .ok h2 ∧
      h2.dxgi_format = h.dxgi_format ∧
      h2.data.width = h.data.width ∧
      h2.data.height = h.data.height ∧
      h2.data.depth = a ∧
      h2.get_array_size = b ∧
      h2.data.mipmap_num = h.data.mipmap_num := by
  have hb2 : ({ h with data := { h.data with depth := a } } : DDSHeader).get_bpp = .ok bpp :=
    hbpp
  simp only [DDSHeader.update]
  rw [hb2]
  exact ⟨_, rfl, rfl, rfl, rfl, rfl, rfl, rfl⟩

theorem DDSHeader.get_bpp_zero_width (h : DDSHeader) (hw : h.data.width = 0) :
    h.get_bpp = .error PyError.zeroDivisionError := by
  simp only [DDSHeader.get_bpp]
  rw [if_pos hw]

theorem DDSHeader.update_error (h : DDSHeader) (a b : Nat) (e : PyError)
    (hbpp : h.get_bpp = .error e) :
    h.update a b = .error e := by
  have hb2 : ({ h with data := { h.data with depth := a } } : DDSHeader).get_bpp = .error e :=
    hbpp
  simp only [DDSHeader.update]
  rw [hb2]

theorem DDSHeader.assemble_ok (h : DDSHeader) (is_array : Bool) (n bpp : Nat)
    (hbpp : h.get_bpp = .ok bpp) :
    ∃ h2, h.assemble is_array n = .ok h2 ∧
      h2.dxgi_format = h.dxgi_format ∧
      h2.data.width = h.data.width ∧
      h2.data.height = h.data.height ∧
      (is_array = true → h2.get_array_size = n) ∧
      (is_array = false → h2.data.depth = n) := by
  cases is_array with
  | true =>
    obtain ⟨h2, hup, hfmt, hw, hh, _, harr, _⟩ := DDSHeader.update_ok h 1 n bpp hbpp
    exact ⟨h2, hup, hfmt, hw, hh, fun _ => harr, fun hc => absurd hc (by simp)⟩
  | false =>
    obtain ⟨h2, hup, hfmt, hw, hh, hdep, _, _⟩ := DDSHeader.update_ok h n 1 bpp hbpp
    exact ⟨h2, hup, hfmt, hw, hh, fun hc => absurd hc (by simp), fun _ => hdep⟩

theorem flatten_length_const (ss : List (List Nat)) (L : Nat)
    (h : ∀ s ∈ ss, s.length = L) : ss.flatten.length = ss.length * L := by
  induction ss with
  | nil => simp
  | cons a tl ih =>
    have ha : a.length = L := h a (by simp)
    have htl := ih (fun s hs => h s (List.mem_cons_of_mem _ hs))
    simp [List.flatten_cons, ha, htl, Nat.succ_mul, Nat.add_comm]

theorem readChunks_length (l : List Nat) (sz n : Nat) :
    (readChunks l sz n).length = n := by
  induction n generalizing l with
  | zero => rfl
  | succ k ih => simp [readChunks, ih]

theorem readChunks_flatten_eq (ss : List (List Nat)) (L : Nat)
    (h : ∀ s ∈ ss, s.length = L) :
    readChunks ss.flatten L ss.length = ss := by
  induction ss with
  | nil => rfl
  | cons a tl ih =>
    have ha : a.length = L := h a (by simp)
    have h1 : (a ++ tl.flatten).take L = a := by
      rw [← ha]; exact List.take_left a tl.flatten
    have h2 : (a ++ tl.flatten).drop L = tl.flatten := by
      rw [← ha]; exact List.drop_left a tl.flatten
    simp only [List.flatten_cons, List.length_cons, readChunks, h1, h2]
    rw [ih (fun s hs => h s (List.mem_cons_of_mem _ hs))]

theorem readChunks_flatten_take (l : List Nat) (sz : Nat) :
    ∀ n, (readChunks l sz n).flatten = l.take (sz * n) := by
  intro n
  induction n generalizing l with
  | zero => simp [readChunks]
  | succ k ih =>
    simp only [readChunks, List.flatten_cons, ih]
    rw [Nat.mul_succ, Nat.add_comm (sz * k) sz, List.take_add]

theorem readChunks_mem_length (l : List Nat) (sz : Nat) :
    ∀ n, sz * n ≤ l.length → ∀ s ∈ readChunks l sz n, s.length = sz := by
  intro n
  induction n generalizing l with
  | zero => intro _ s hs; simp [readChunks] at hs
  | succ k ih =>
    intro hle s hs
    rw [Nat.mul_succ] at hle
    have hsz : sz ≤ l.length := by omega
    simp only [readChunks, List.mem_cons] at hs
    rcases hs with h1 | h2
    · subst h1; simp [List.length_take, Nat.min_eq_left hsz]
    · refine ih (l.drop sz) ?_ s h2
      rw [List.length_drop]
      omega

theorem getD_set_self {α : Type} (l : List α) (i : Nat) (v dflt : α)
    (h : i < l.length) : (l.set i v).getD i dflt = v := by
  induction l generalizing i with
  | nil => simp at h
  | cons a tl ih =>
    cases i with
    | zero => rfl
    | succ j =>
      simp only [List.set, List.getD, List.getElem?_cons_succ]
      have := ih j (by simpa using h)
      simpa [List.getD] using this

theorem flatten_singleton_chunks {α : Type} (l : List α) :
    ((List.range l.length).map (fun i => (l.drop i).take 1)).flatten = l := by
  induction l with
  | nil => rfl
  | cons a tl ih =>
    rw [List.length_cons, List.range_succ_eq_map, List.map_cons, List.map_map]
    simp only [Function.comp_def, List.drop_succ_cons, List.drop_zero, List.take_succ_cons,
      List.take_zero, List.flatten_cons, List.singleton_append]
    rw [ih]

theorem assembleCheck_none (header : DDSHeader) (rest : List DDS)
    (h : ∀ d ∈ rest, header.dxgi_format = d.header.dxgi_format ∧
      header.data.width = d.header.data.width ∧
      header.data.height = d.header.data.height) :
    assembleCheck header rest = none := by
  induction rest with
  | nil => rfl
  | cons d tl ih =>
    obtain ⟨h1, h2, h3⟩ := h d (by simp)
    simp only [assembleCheck, h1, h2, h3]
    simp only [ne_eq, not_true_eq_false, if_false, or_self, ite_false]
    exact ih (fun d hd => h d (List.mem_cons_of_mem _ hd))

theorem assembleCheck_size_mismatch (header : DDSHeader) (rest : List DDS)
    (hfmt : ∀ d ∈ rest, header.dxgi_format = d.header.dxgi_format)
    (hbad : ∃ d ∈ rest, header.data.width ≠ d.header.data.width ∨
      header.data.height ≠ d.header.data.height) :
    assembleCheck header rest =
      some (.runtimeError "Failed to assemble dds files. Texture sizes should be the same") := by
  induction rest with
  | nil => simp at hbad
  | cons d tl ih =>
    have h1 := hfmt d (by simp)
    by_cases hsz : header.data.width ≠ d.header.data.width ∨
        header.data.height ≠ d.header.data.height
    · simp only [assembleCheck, h1]
      simp only [ne_eq, not_true_eq_false, if_false]
      rw [if_pos hsz]
    · simp only [assembleCheck, h1]
      simp only [ne_eq, not_true_eq_false, if_false]
      rw [if_neg hsz]
      refine ih (fun x hx => hfmt x (List.mem_cons_of_mem _ hx)) ?_
      rcases hbad with ⟨x, hx, hxbad⟩
      rcases List.mem_cons.mp hx with rfl | hmem
      · exact absurd hxbad hsz
      · exact ⟨x, hmem, hxbad⟩

theorem assembleCheck_fmt_mismatch (header : DDSHeader) (rest : List DDS)
    (hsz : ∀ d ∈ rest, header.data.width = d.header.data.width ∧
      header.data.height = d.header.data.height)
    (hbad : ∃ d ∈ rest, header.dxgi_format ≠ d.header.dxgi_format) :
    assembleCheck header rest =
      some (.runtimeError "Failed to assemble dds files. DXGI formats should be the same") := by
  induction rest with
  | nil => simp at hbad
  | cons d tl ih =>
    by_cases hf : header.dxgi_format ≠ d.header.dxgi_format
    · simp only [assembleCheck]
      rw [if_pos hf]
    · obtain ⟨h2, h3⟩ := hsz d (by simp)
      simp only [assembleCheck]
      rw [if_neg hf]
      simp only [h2, h3, ne_eq, not_true_eq_false, if_false, or_self, ite_false]
      refine ih (fun x hx => hsz x (List.mem_cons_of_mem _ hx)) ?_
      rcases hbad with ⟨x, hx, hxbad⟩
      rcases List.mem_cons.mp hx with rfl | hmem
      · exact absurd hxbad hf
      · exact ⟨x, hmem, hxbad⟩

theorem mipSizesAux_length (bx bY bpb : Nat) :
    ∀ n w h pos, (mipSizesAux bx bY bpb n w h pos).length = n := by
  intro n
  induction n with
  | zero => intro w h pos; rfl
  | succ k ih => intro w h pos; simp [mipSizesAux, ih]

theorem mipSizesAux_head (bx bY bpb : Nat) (n w h pos : Nat) (hn : 0 < n) :
    (mipSizesAux bx bY bpb n w h pos).getD 0 default =
      ⟨w, h, pos, ceilPyDiv w bx * ceilPyDiv h bY * bpb⟩ := by
  cases n with
  | zero => omega
  | succ k => rfl

theorem mipSizesAux_size (bx bY bpb : Nat) :
    ∀ n i w h pos, i < n →
      ((mipSizesAux bx bY bpb n w h pos).getD i default).bin_size =
        ceilPyDiv ((mipSizesAux bx bY bpb n w h pos).getD i default).width bx *
        ceilPyDiv ((mipSizesAux bx bY bpb n w h pos).getD i default).height bY * bpb := by
  intro n
  induction n with
  | zero => intro i w h pos hi; omega
  | succ k ih =>
    intro i w h pos hi
    cases i with
    | zero => rfl
    | succ j =>
      have hj : j < k := by omega
      simpa [mipSizesAux, List.getD_cons_succ] using ih j _ _ _ hj

theorem mipSizesAux_step (bx bY bpb : Nat) :
    ∀ n i w h pos, i + 1 < n →
      ((mipSizesAux bx bY bpb n w h pos).getD (i + 1) default).width =
        max 1 (((mipSizesAux bx bY bpb n w h pos).getD i default).width / 2) ∧
      ((mipSizesAux bx bY bpb n w h pos).getD (i + 1) default).height =
        max 1 (((mipSizesAux bx bY bpb n w h pos).getD i default).height / 2) ∧
      ((mipSizesAux bx bY bpb n w h pos).getD (i + 1) default).bin_pos =
        ((mipSizesAux bx bY bpb n w h pos).getD i default).bin_pos +
        ((mipSizesAux bx bY bpb n w h pos).getD i default).bin_size := by
  intro n
  induction n with
  | zero => intro i w h pos hi; omega
  | succ k ih =>
    intro i w h pos hi
    cases i with
    | zero =>
      have hk : 0 < k := by omega
      simp only [mipSizesAux, List.getD_cons_succ, List.getD_cons_zero]
      rw [mipSizesAux_head bx bY bpb k _ _ _ hk]
      exact ⟨Nat.max_comm _ _, Nat.max_comm _ _, rfl⟩
    | succ j =>
      have hj : j + 1 < k := by omega
      simpa [mipSizesAux, List.getD_cons_succ] using ih j _ _ _ hj

theorem DDSHeader.read_dx10 (img : FileImage) (dxgi : Nat)
    (h1 : img.data.pixel_format.is_dx10 = true)
    (h2 : img.dx10.get_dxgi = .ok dxgi)
    (h3 : img.data.magic = DDSHeader.MAGIC)
    (h4 : img.data.head_size = 124)
    (h5 : img.dx10.resource_dimension ≠ 2) :
    DDSHeader.read img =
      .ok ⟨{ img.data with
             mipmap_num := img.data.mipmap_num + (if img.data.mipmap_num = 0 then 1 else 0) },
           img.dx10, dxgi⟩ := by
  simp only [DDSHeader.read, DDSHeader.readStep, h1, h2, h3, h4, h5, if_true, ite_false,
    ne_eq, not_true_eq_false, not_false_eq_true, or_self, if_false]

theorem DDSHeader.read_legacy (img : FileImage) (dxgi : Nat)
    (h1 : img.data.pixel_format.is_dx10 = false)
    (h2 : img.data.pixel_format.get_dxgi = .ok dxgi)
    (h3 : img.data.magic = DDSHeader.MAGIC)
    (h4 : img.data.head_size = 124) :
    DDSHeader.read img =
      .ok ⟨{ img.data with
             mipmap_num := img.data.mipmap_num + (if img.data.mipmap_num = 0 then 1 else 0) },
           DX10Header.update dxgi (DDS_CAPS2.is_cube img.data.caps2) (img.data.depth > 1) 1,
           dxgi⟩ := by
  have hdim : (DX10Header.update dxgi (DDS_CAPS2.is_cube img.data.caps2)
      (img.data.depth > 1) 1).resource_dimension ≠ 2 := by
    simp only [DX10Header.update]
    split <;> omega
  simp only [DDSHeader.read, DDSHeader.readStep, h1, h2, h3, h4, hdim, Bool.false_eq_true,
    if_false, ite_false, ne_eq, not_true_eq_false, not_false_eq_true, or_self]

theorem DDSHeader.readStep_ok_data (img : FileImage) (head : DDSHeader)
    (hs : DDSHeader.readStep img = .ok head) :
    head.data = { img.data with
      mipmap_num := img.data.mipmap_num + (if img.data.mipmap_num = 0 then 1 else 0) } := by
  unfold DDSHeader.readStep at hs
  set m := img.data.mipmap_num + (if img.data.mipmap_num = 0 then 1 else 0) with hm
  dsimp only at hs
  repeat' split at hs
  all_goals first
    | (injection hs with hs; subst hs; rfl)
    | simp at hs

theorem DDSHeader.read_ok_data (img : FileImage) (head : DDSHeader)
    (h : DDSHeader.read img = .ok head) :
    head.data = { img.data with
      mipmap_num := img.data.mipmap_num + (if img.data.mipmap_num = 0 then 1 else 0) } := by
  unfold DDSHeader.read at h
  cases hs : DDSHeader.readStep img with
  | error e => rw [hs] at h; exact absurd h (by simp)
  | ok head' =>
    rw [hs] at h
    have h2 : (if head'.data.magic ≠ DDSHeader.MAGIC ∨ head'.data.head_size ≠ 124 then
        (Except.error (PyError.runtimeError "Not DDS file.") : Except PyError DDSHeader)
      else if head'.dx10_header.resource_dimension = 2 then
        Except.error (PyError.runtimeError "1D textures are unsupported.")
      else .ok head') = .ok head := h
    clear h
    split at h2
    · exact absurd h2 (by simp)
    · split at h2
      · exact absurd h2 (by simp)
      · injection h2 with h2
        subst h2
        exact DDSHeader.readStep_ok_data img head' hs

theorem DDSPixelFormat.detectBitmask_none (pf : DDSPixelFormat)
    (h : ∀ mp ∈ BITMASK_TO_DXGI, pf.is_bit_mask mp.1 = false) :
    pf.detectBitmask = none := by
  unfold DDSPixelFormat.detectBitmask
  have main : ∀ (l : List (List Nat × Nat)), (∀ mp ∈ l, pf.is_bit_mask mp.1 = false) →
      l.foldl (fun acc p => if pf.is_bit_mask p.1 then some p.2 else acc) none = none := by
    intro l
    induction l with
    | nil => intro _; rfl
    | cons d tl ih =>
      intro hl
      simp only [List.foldl_cons, hl d (by simp), Bool.false_eq_true, if_false]
      exact ih (fun x hx => hl x (List.mem_cons_of_mem _ hx))
  exact main _ h

/-- C10: reading a header coerces a mip count of 0 to 1 but applies no
coercion to the depth field; for a header whose on-disk depth is 0 the
computed slice count is 0 and `DDS.load` divides by it unguarded, raising
`ZeroDivisionError` — an error outside the spec's taxonomy of
`RuntimeError`-based failures. -/
theorem c10_depth_zero_division (img : FileImage) (head : DDSHeader)
    (hread : DDSHeader.read img = .ok head)
    (hdepth : img.data.depth = 0)
    (hmip : img.data.mipmap_num = 0) :
    head.data.depth = 0 ∧
    head.data.mipmap_num = 1 ∧
    head.get_num_slices = 0 ∧
    DDS.load img = .error PyError.zeroDivisionError ∧
    ∀ msg, DDS.load img ≠ .error (.runtimeError msg) := by
  have hdata := DDSHeader.read_ok_data img head hread
  have hdepth' : head.data.depth = 0 := by rw [hdata]; exact hdepth
  have hmip' : head.data.mipmap_num = 1 := by
    rw [hdata]
    show img.data.mipmap_num + (if img.data.mipmap_num = 0 then 1 else 0) = 1
    rw [hmip]
    decide
  have hns : head.get_num_slices = 0 := by
    unfold DDSHeader.get_num_slices
    rw [hdepth']
    simp
  have hload : DDS.load img = .error PyError.zeroDivisionError := by
    unfold DDS.load
    rw [hread]
    show (if head.get_num_slices = 0 then (Except.error PyError.zeroDivisionError : Except PyError DDS)
      else .ok ⟨head, readChunks img.payload (img.payload.length / head.get_num_slices)
        head.get_num_slices⟩) = .error PyError.zeroDivisionError
    rw [if_pos hns]
  refine ⟨hdepth', hmip', hns, hload, ?_⟩
  intro msg
  rw [hload]
  simp

/-- Witness for C10 at a concrete legacy `DXT1` image with on-disk
`depth = 0` and `mipmap_num = 0`. -/
theorem c10_depth_zero_division_witness :
    c10Head.data.depth = 0 ∧
    c10Head.data.mipmap_num = 1 ∧
    c10Head.get_num_slices = 0 ∧
    DDS.load c10Img = .error PyError.zeroDivisionError ∧
    ∀ msg, DDS.load c10Img ≠ .error (.runtimeError msg) :=
  c10_depth_zero_division c10Img c10Head (by decide) (by decide) (by decide)

/-- C3 counterexample: a legacy `DXT1` image with 2 computed slices and a
5-byte payload (5 does not divide by 2) is loaded successfully — the
payload is silently floor-divided into two 2-byte slices and the fifth
byte is dropped — instead of failing with a corruption error as the
claim states. -/
theorem c3_counterexample :
    DDSHeader.read c3Img = .ok c3Head ∧
    c3Head.get_num_slices = 2 ∧
    c3Img.payload.length = 5 ∧
    c3Img.payload.length % c3Head.get_num_slices = 1 ∧
    DDS.load c3Img = .ok ⟨c3Head, [[1, 2], [3, 4]]⟩ := by
  refine ⟨by decide, by decide, by decide, by decide, by decide⟩

/-- C3 (amended): for every image the header reader accepts with a
positive computed slice count, `DDS.load` succeeds and partitions the
remaining bytes into exactly `get_num_slices` consecutive slices of
`remaining // slice_count` bytes each; any remainder is silently
discarded (the slices flatten to a prefix of the payload) and no
corruption error is raised on a non-divisible size. -/
theorem c3_load_partition (img : FileImage) (head : DDSHeader)
    (hread : DDSHeader.read img = .ok head)
    (hn : 0 < head.get_num_slices) :
    ∃ d, DDS.load img = .ok d ∧ d.header = head ∧
      d.slice_bin_list.length = head.get_num_slices ∧
      (∀ s ∈ d.slice_bin_list, s.length = img.payload.length / head.get_num_slices) ∧
      d.slice_bin_list.flatten =
        img.payload.take (img.payload.length / head.get_num_slices * head.get_num_slices) := by
  have hns : head.get_num_slices ≠ 0 := Nat.pos_iff_ne_zero.mp hn
  refine ⟨⟨head, readChunks img.payload (img.payload.length / head.get_num_slices)
    head.get_num_slices⟩, ?_, rfl, ?_, ?_, ?_⟩
  · unfold DDS.load
    rw [hread]
    show (if head.get_num_slices = 0 then (Except.error PyError.zeroDivisionError : Except PyError DDS)
      else .ok ⟨head, readChunks img.payload (img.payload.length / head.get_num_slices)
        head.get_num_slices⟩) = _
    rw [if_neg hns]
  · exact readChunks_length _ _ _
  · exact readChunks_mem_length _ _ _ (Nat.div_mul_le_self _ _)
  · exact readChunks_flatten_take _ _ _

/-- Witness for the amended C3 at the concrete image `c3Img`. -/
theorem c3_load_partition_witness :
    ∃ d, DDS.load c3Img = .ok d ∧ d.header = c3Head ∧
      d.slice_bin_list.length = c3Head.get_num_slices ∧
      (∀ s ∈ d.slice_bin_list, s.length = c3Img.payload.length / c3Head.get_num_slices) ∧
      d.slice_bin_list.flatten =
        c3Img.payload.take (c3Img.payload.length / c3Head.get_num_slices * c3Head.get_num_slices) :=
  c3_load_partition c3Img c3Head (by decide) (by decide)

/-- C5: the claim describes the intended bump/dudv signed-format
correction, but the code's `get_signed` computes
`splitted[:-1] + new_num_types[num_type]`, a list-plus-string
concatenation that raises `TypeError` for every UNORM/UINT format. On a
legacy pixel format with the bump/dudv flag and the `R8G8B8A8_UNORM`
bitmask (whose SNORM counterpart exists in the catalog), resolution
raises instead of returning `R8G8B8A8_SNORM`; without the flag the same
bitmask resolves fine. -/
theorem c5_bump_dudv_type_error :
    c5BumpPf.detectBitmask = some DXGI_FORMAT.R8G8B8A8_UNORM ∧
    DXGI_FORMAT.is_valid_format "R8G8B8A8_SNORM" = true ∧
    c5BumpPf.get_dxgi = .error PyError.typeError ∧
    ({ c5BumpPf with flags := 0 } : DDSPixelFormat).get_dxgi =
      .ok DXGI_FORMAT.R8G8B8A8_UNORM := by
  refine ⟨by decide, by decide, by decide, by decide⟩

/-- C8: legacy format resolution is a function of the pixel format's
`flags`, `fourCC` and `bit_mask` fields alone, and for every canonical
pixel format whose fourCC matches no catalog entry and whose bitmask
tuple (the all-zero tuple included) matches no catalog entry, it falls
back to `B8G8R8A8_UNORM` without raising. -/
theorem c8_resolution_deterministic_fallback :
    (∀ pf1 pf2 : DDSPixelFormat, pf1.flags = pf2.flags → pf1.fourCC = pf2.fourCC →
      pf1.bit_mask = pf2.bit_mask → pf1.get_dxgi = pf2.get_dxgi) ∧
    (∀ pf : DDSPixelFormat, pf.is_canonical = true →
      DDSPixelFormat.lookupFourCC pf.fourCCVal = none →
      (∀ mp ∈ BITMASK_TO_DXGI, pf.is_bit_mask mp.1 = false) →
      pf.get_dxgi = .ok DXGI_FORMAT.B8G8R8A8_UNORM) := by
  constructor
  · intro pf1 pf2 hf hc hm
    cases pf1
    cases pf2
    simp only at hf hc hm
    subst hf
    subst hc
    subst hm
    rfl
  · intro pf hcanon hcc hmask
    have hvia : (if pf.flags &&& PF_FLAGS.FOURCC ≠ 0 then
        DDSPixelFormat.lookupFourCC pf.fourCCVal else none) = none := by
      split
      · exact hcc
      · rfl
    have hdet := DDSPixelFormat.detectBitmask_none pf hmask
    simp only [DDSPixelFormat.get_dxgi, hcanon, hvia, hdet, Bool.true_eq_false, if_false,
      ite_false]

/-- Witness for C8: determinism applied to two pixel formats agreeing on
`flags`/`fourCC`/`bit_mask` but differing in `size` and `bit_count`, and
the fallback applied to an all-zero pixel format. -/
theorem c8_resolution_witness :
    dxt1PixelFormat.get_dxgi =
      (⟨99, 4, [68, 88, 84, 49], 7, [0, 0, 0, 0]⟩ : DDSPixelFormat).get_dxgi ∧
    (⟨32, 0, [0, 0, 0, 0], 0, [0, 0, 0, 0]⟩ : DDSPixelFormat).get_dxgi =
      .ok DXGI_FORMAT.B8G8R8A8_UNORM :=
  ⟨c8_resolution_deterministic_fallback.1 _ _ rfl rfl rfl,
   c8_resolution_deterministic_fallback.2 _ (by decide) (by decide) (by decide)⟩

/-- C4: for a header whose format has a known byte-per-block value and
`mip_count ≥ 1`, the mip layout has exactly `mip_count` entries, entry 0
carries `(width, height)` at byte position 0, every entry's byte size is
the block-grid ceiling product `ceil(w / bx) * ceil(h / bY) * bpb` of its
own dimensions, and each next entry halves width and height with floor
division clamped below at 1 while its position accumulates the preceding
sizes. -/
theorem c4_mip_layout (h : DDSHeader) (bpb : Nat)
    (hbpb : h.get_byte_per_block = .ok bpb)
    (hmip : 1 ≤ h.data.mipmap_num) :
    ∃ l, h.get_mip_sizes = .ok l ∧
      l.length = h.data.mipmap_num ∧
      (l.getD 0 default).width = h.data.width ∧
      (l.getD 0 default).height = h.data.height ∧
      (l.getD 0 default).bin_pos = 0 ∧
      (∀ i, i < l.length →
        (l.getD i default).bin_size =
          ceilPyDiv (l.getD i default).width h.get_block_size.1 *
          ceilPyDiv (l.getD i default).height h.get_block_size.2 * bpb) ∧
      (∀ i, i + 1 < l.length →
        (l.getD (i + 1) default).width = max 1 ((l.getD i default).width / 2) ∧
        (l.getD (i + 1) default).height = max 1 ((l.getD i default).height / 2) ∧
        (l.getD (i + 1) default).bin_pos =
          (l.getD i default).bin_pos + (l.getD i default).bin_size) := by
  refine ⟨mipSizesAux h.get_block_size.1 h.get_block_size.2 bpb
    h.data.mipmap_num h.data.width h.data.height 0, ?_, ?_, ?_, ?_, ?_, ?_, ?_⟩
  · unfold DDSHeader.get_mip_sizes
    rw [hbpb]
  · exact mipSizesAux_length _ _ _ _ _ _ _
  · rw [mipSizesAux_head _ _ _ _ _ _ _ hmip]
  · rw [mipSizesAux_head _ _ _ _ _ _ _ hmip]
  · rw [mipSizesAux_head _ _ _ _ _ _ _ hmip]
  · intro i hi
    rw [mipSizesAux_length] at hi
    exact mipSizesAux_size _ _ _ _ i _ _ _ hi
  · intro i hi
    rw [mipSizesAux_length] at hi
    exact mipSizesAux_step _ _ _ _ i _ _ _ hi

/-- Witness for C4 at an 8x8 `B8G8R8A8_UNORM` header with 4 mip levels
(byte-per-block 4, block size 1x1). -/
theorem c4_mip_layout_witness :
    ∃ l, c4Header.get_mip_sizes = .ok l ∧
      l.length = c4Header.data.mipmap_num ∧
      (l.getD 0 default).width = c4Header.data.width ∧
      (l.getD 0 default).height = c4Header.data.height ∧
      (l.getD 0 default).bin_pos = 0 ∧
      (∀ i, i < l.length →
        (l.getD i default).bin_size =
          ceilPyDiv (l.getD i default).width c4Header.get_block_size.1 *
          ceilPyDiv (l.getD i default).height c4Header.get_block_size.2 * 4) ∧
      (∀ i, i + 1 < l.length →
        (l.getD (i + 1) default).width = max 1 ((l.getD i default).width / 2) ∧
        (l.getD (i + 1) default).height = max 1 ((l.getD i default).height / 2) ∧
        (l.getD (i + 1) default).bin_pos =
          (l.getD i default).bin_pos + (l.getD i default).bin_size) :=
  c4_mip_layout c4Header 4 (by decide) (by decide)

/-- C6 counterexample: `remove_mips` on a 64x64 `BC1_UNORM` container
raises `RuntimeError` — `get_byte_per_block` does not support BC formats
— instead of truncating to the 2048-byte base-mip range as the claim
states. -/
theorem c6_counterexample :
    c6BC1.header.get_format_as_str = "BC1_UNORM" ∧
    DDS.remove_mips c6BC1 =
      .error (.runtimeError "get_byte_per_block() does not support BC1_UNORM.") := by
  refine ⟨by decide, by decide⟩

/-- C6 (amended): for every container whose format `get_byte_per_block`
supports (the ASTC, B8G8R8A8, R16G16B16A16 and R32G32B32A32 families —
not the BC formats), `remove_mips` sets the mip count to 1 and truncates
every slice to the base level-0 byte size of the layout formula, which
coincides with entry 0 of `get_mip_sizes`; for BC formats it raises. -/
theorem c6_remove_mips_supported (d : DDS) (bpb : Nat)
    (hbpb : d.header.get_byte_per_block = .ok bpb) :
    ∃ d2, DDS.remove_mips d = .ok d2 ∧
      d2.header.data.mipmap_num = 1 ∧
      d2.header.dxgi_format = d.header.dxgi_format ∧
      d2.header.data.width = d.header.data.width ∧
      d2.header.data.height = d.header.data.height ∧
      d2.slice_bin_list = d.slice_bin_list.map (fun b => b.take
        (ceilPyDiv d.header.data.width d.header.get_block_size.1 *
         ceilPyDiv d.header.data.height d.header.get_block_size.2 * bpb)) ∧
      (1 ≤ d.header.data.mipmap_num → ∀ l, d.header.get_mip_sizes = .ok l →
        (l.getD 0 default).bin_size =
          ceilPyDiv d.header.data.width d.header.get_block_size.1 *
          ceilPyDiv d.header.data.height d.header.get_block_size.2 * bpb) := by
  refine ⟨⟨{ d.header with data := { d.header.data with mipmap_num := 1 } },
    d.slice_bin_list.map (fun b => b.take
      (ceilPyDiv d.header.data.width d.header.get_block_size.1 *
       ceilPyDiv d.header.data.height d.header.get_block_size.2 * bpb))⟩,
    ?_, rfl, rfl, rfl, rfl, rfl, ?_⟩
  · unfold DDS.remove_mips
    rw [hbpb]
  · intro hm l hl
    unfold DDSHeader.get_mip_sizes at hl
    rw [hbpb] at hl
    injection hl with hl
    rw [← hl, mipSizesAux_head _ _ _ _ _ _ _ hm]

/-- Witness for the amended C6 at a 4x4 `B8G8R8A8_UNORM` container with
2 mip levels (byte-per-block 4). -/
theorem c6_remove_mips_supported_witness :
    ∃ d2, DDS.remove_mips c6B8 = .ok d2 ∧
      d2.header.data.mipmap_num = 1 ∧
      d2.header.dxgi_format = c6B8.header.dxgi_format ∧
      d2.header.data.width = c6B8.header.data.width ∧
      d2.header.data.height = c6B8.header.data.height ∧
      d2.slice_bin_list = c6B8.slice_bin_list.map (fun b => b.take
        (ceilPyDiv c6B8.header.data.width c6B8.header.get_block_size.1 *
         ceilPyDiv c6B8.header.data.height c6B8.header.get_block_size.2 * 4)) ∧
      (1 ≤ c6B8.header.data.mipmap_num → ∀ l, c6B8.header.get_mip_sizes = .ok l →
        (l.getD 0 default).bin_size =
          ceilPyDiv c6B8.header.data.width c6B8.header.get_block_size.1 *
          ceilPyDiv c6B8.header.data.height c6B8.header.get_block_size.2 * 4) :=
  c6_remove_mips_supported c6B8 4 (by decide)

/-- C9 counterexample: disassembling a 2-element texture array produces
two output containers that both reference the same header object as the
input (heap slot 0) — the header is aliased between the input and every
output, contradicting the claim of independently owned copies. -/
theorem c9_counterexample :
    c9Header.get_array_size = 2 ∧
    c9Obj.headerRef = 0 ∧
    (ddsDisassembleHeap c9Store c9Obj).map (fun r => r.2.map (fun o => o.headerRef)) =
      .ok [0, 0] := by
  refine ⟨by decide, by decide, by decide⟩

/-- C9 (amended): for a container whose header has a well-defined
bits-per-pixel derivation (nonzero width, and nonzero height when the
PITCH flag is absent — otherwise `disassemble()` raises
`ZeroDivisionError` inside `get_bpp` before producing anything),
disassembling produces `depth * array_size` output containers that all
reference the input container's single header object; that shared object
is mutated in place once, to the result of `disassemble` (`depth = 1`,
`array_size = 1`, flags, caps and pitch recomputed by `update`) — no
output owns an independent copy. -/
theorem c9_disassemble_shared_header (store : List DDSHeader) (d : DDSRef) (bpp : Nat)
    (hlt : d.headerRef < store.length)
    (hbpp : (store.getD d.headerRef DDSHeader.init).get_bpp = .ok bpp) :
    ∃ store2 outs, ddsDisassembleHeap store d = .ok (store2, outs) ∧
      outs.length = (store.getD d.headerRef DDSHeader.init).data.depth *
        (store.getD d.headerRef DDSHeader.init).get_array_size ∧
      (∀ o ∈ outs, o.headerRef = d.headerRef) ∧
      (store.getD d.headerRef DDSHeader.init).disassemble =
        .ok (store2.getD d.headerRef DDSHeader.init) ∧
      (store2.getD d.headerRef DDSHeader.init).get_array_size = 1 ∧
      (store2.getD d.headerRef DDSHeader.init).data.depth = 1 := by
  obtain ⟨h2, hup, _, _, _, hdep2, harr2, _⟩ :=
    DDSHeader.update_ok (store.getD d.headerRef DDSHeader.init) 1 1 bpp hbpp
  have hdis : (store.getD d.headerRef DDSHeader.init).disassemble = .ok h2 := hup
  have hset : (store.set d.headerRef h2).getD d.headerRef DDSHeader.init = h2 :=
    getD_set_self store d.headerRef h2 DDSHeader.init hlt
  refine ⟨store.set d.headerRef h2,
    (List.range ((store.getD d.headerRef DDSHeader.init).data.depth *
      (store.getD d.headerRef DDSHeader.init).get_array_size)).map
      (fun i => ⟨d.headerRef,
        (d.slice_bin_list.drop
          (i * (1 + 5 * (if (store.getD d.headerRef DDSHeader.init).is_cube then 1 else 0)))).take
        (1 + 5 * (if (store.getD d.headerRef DDSHeader.init).is_cube then 1 else 0))⟩),
    ?_, ?_, ?_, ?_, ?_, ?_⟩
  · simp only [ddsDisassembleHeap]
    rw [hdis]
  · simp
  · intro o ho
    simp only [List.mem_map, List.mem_range] at ho
    obtain ⟨i, _, rfl⟩ := ho
    rfl
  · rw [hset]
    exact hdis
  · rw [hset]
    exact harr2
  · rw [hset]
    exact hdep2

/-- Witness for the amended C9 at the concrete one-header heap
`c9Store` and the 2-slice container `c9Obj` (the stored header has
width 4, height 4, so its `get_bpp` is defined). -/
theorem c9_disassemble_shared_header_witness :
    ∃ store2 outs, ddsDisassembleHeap c9Store c9Obj = .ok (store2, outs) ∧
      outs.length = (c9Store.getD c9Obj.headerRef DDSHeader.init).data.depth *
        (c9Store.getD c9Obj.headerRef DDSHeader.init).get_array_size ∧
      (∀ o ∈ outs, o.headerRef = c9Obj.headerRef) ∧
      (c9Store.getD c9Obj.headerRef DDSHeader.init).disassemble =
        .ok (store2.getD c9Obj.headerRef DDSHeader.init) ∧
      (store2.getD c9Obj.headerRef DDSHeader.init).get_array_size = 1 ∧
      (store2.getD c9Obj.headerRef DDSHeader.init).data.depth = 1 :=
  c9_disassemble_shared_header c9Store c9Obj 1 (by decide) (by decide)

/-- Concrete checks that the `ZeroDivisionError` path of `get_bpp` is
live through the container operations: a zero-width first container
makes `DDS.assemble` raise before its mismatch loop (even though the
widths also differ), and a zero-width header makes both views of
disassembly raise before producing any output. -/
theorem zero_width_raises_before_checks :
    DDS.assemble [(⟨{ c7A.header with data := { c7A.header.data with width := 0 } },
      c7A.slice_bin_list⟩ : DDS), c7W] true = .error PyError.zeroDivisionError ∧
    DDS.get_disassembled_dds_list ⟨{ c2DDS.header with
      data := { c2DDS.header.data with width := 0 } }, c2DDS.slice_bin_list⟩ =
      .error PyError.zeroDivisionError ∧
    ddsDisassembleHeap [{ c9Header with data := { c9Header.data with width := 0 } }] c9Obj =
      .error PyError.zeroDivisionError := by
  refine ⟨by decide, by decide, by decide⟩

theorem assemble_ok_of_all_match (d0 : DDS) (rest : List DDS) (is_array : Bool) (bpp : Nat)
    (hbpp : d0.header.get_bpp = .ok bpp)
    (hall : ∀ d ∈ rest, d.header.dxgi_format = d0.header.dxgi_format ∧
      d.header.data.width = d0.header.data.width ∧
      d.header.data.height = d0.header.data.height) :
    ∃ hdr, DDS.assemble (d0 :: rest) is_array =
        .ok ⟨hdr, ((d0 :: rest).map (fun d : DDS => d.slice_bin_list)).flatten⟩ ∧
      (is_array = true → hdr.get_array_size = (d0 :: rest).length) ∧
      (is_array = false → hdr.data.depth = (d0 :: rest).length) := by
  obtain ⟨hdr, hasm, hfmt0, hw0, hh0, harrc, hdepc⟩ :=
    DDSHeader.assemble_ok d0.header is_array (d0 :: rest).length bpp hbpp
  have hcheck := assembleCheck_none hdr rest
    (fun d hd => ⟨by rw [hfmt0, (hall d hd).1], by rw [hw0, (hall d hd).2.1],
      by rw [hh0, (hall d hd).2.2]⟩)
  refine ⟨hdr, ?_, harrc, hdepc⟩
  show (match d0.header.assemble is_array (d0 :: rest).length with
    | .error e => (Except.error e : Except PyError DDS)
    | .ok header =>
      match assembleCheck header rest with
      | some e => .error e
      | none => .ok ⟨header, ((d0 :: rest).map (fun d : DDS => d.slice_bin_list)).flatten⟩) = _
  rw [hasm]
  show (match assembleCheck hdr rest with
    | some e => (Except.error e : Except PyError DDS)
    | none => .ok ⟨hdr, ((d0 :: rest).map (fun d : DDS => d.slice_bin_list)).flatten⟩) = _
  rw [hcheck]

/-- C7: for a non-empty list of containers whose first container's
header has a well-defined bits-per-pixel derivation (nonzero width, and
nonzero height when the PITCH flag is absent — the header re-derivation
Python runs before the mismatch loop raises `ZeroDivisionError`
otherwise), assembling fails with the size-mismatch `RuntimeError` when
some input's width or height differs from the first input's (formats all
agreeing), fails with the format-mismatch `RuntimeError` when some
input's resolved DXGI format differs (sizes all agreeing), and in both
cases returns no container; when every input agrees with the first on
format, width and height, it returns a container whose slice list is the
concatenation of all inputs' slices in input order and whose header
carries `array_size` (for `as_array = true`) or `depth` (for
`as_array = false`) equal to the number of inputs. -/
theorem c7_assemble_spec (d0 : DDS) (rest : List DDS) (is_array : Bool) (bpp : Nat)
    (hbpp : d0.header.get_bpp = .ok bpp) :
    ((∀ d ∈ rest, d.header.dxgi_format = d0.header.dxgi_format) →
      (∃ d ∈ rest, d.header.data.width ≠ d0.header.data.width ∨
        d.header.data.height ≠ d0.header.data.height) →
      DDS.assemble (d0 :: rest) is_array =
        .error (.runtimeError "Failed to assemble dds files. Texture sizes should be the same")) ∧
    ((∀ d ∈ rest, d.header.data.width = d0.header.data.width ∧
        d.header.data.height = d0.header.data.height) →
      (∃ d ∈ rest, d.header.dxgi_format ≠ d0.header.dxgi_format) →
      DDS.assemble (d0 :: rest) is_array =
        .error (.runtimeError "Failed to assemble dds files. DXGI formats should be the same")) ∧
    ((∀ d ∈ rest, d.header.dxgi_format = d0.header.dxgi_format ∧
        d.header.data.width = d0.header.data.width ∧
        d.header.data.height = d0.header.data.height) →
      ∃ dd, DDS.assemble (d0 :: rest) is_array = .ok dd ∧
        dd.slice_bin_list = ((d0 :: rest).map (fun d => d.slice_bin_list)).flatten ∧
        (is_array = true → dd.header.get_array_size = (d0 :: rest).length) ∧
        (is_array = false → dd.header.data.depth = (d0 :: rest).length)) := by
  obtain ⟨hdr, hasm, hfmt0, hw0, hh0, harrc, hdepc⟩ :=
    DDSHeader.assemble_ok d0.header is_array (d0 :: rest).length bpp hbpp
  have hstep : DDS.assemble (d0 :: rest) is_array =
      (match assembleCheck hdr rest with
        | some e => (Except.error e : Except PyError DDS)
        | none => .ok ⟨hdr, ((d0 :: rest).map (fun d : DDS => d.slice_bin_list)).flatten⟩) := by
    show (match d0.header.assemble is_array (d0 :: rest).length with
      | .error e => (Except.error e : Except PyError DDS)
      | .ok header =>
        match assembleCheck header rest with
        | some e => .error e
        | none => .ok ⟨header, ((d0 :: rest).map (fun d : DDS => d.slice_bin_list)).flatten⟩) = _
    rw [hasm]
  refine ⟨?_, ?_, ?_⟩
  · intro hfmt hbad
    have hcheck := assembleCheck_size_mismatch hdr rest
      (fun d hd => by rw [hfmt0, hfmt d hd])
      (by
        obtain ⟨d, hd, hor⟩ := hbad
        refine ⟨d, hd, ?_⟩
        rcases hor with hne | hne
        · exact Or.inl (by rw [hw0]; exact fun he => hne he.symm)
        · exact Or.inr (by rw [hh0]; exact fun he => hne he.symm))
    rw [hstep, hcheck]
  · intro hsz hbad
    have hcheck := assembleCheck_fmt_mismatch hdr rest
      (fun d hd => ⟨by rw [hw0, (hsz d hd).1], by rw [hh0, (hsz d hd).2]⟩)
      (by
        obtain ⟨d, hd, hne⟩ := hbad
        exact ⟨d, hd, by rw [hfmt0]; exact fun he => hne he.symm⟩)
    rw [hstep, hcheck]
  · intro hall
    have hcheck := assembleCheck_none hdr rest
      (fun d hd => ⟨by rw [hfmt0, (hall d hd).1], by rw [hw0, (hall d hd).2.1],
        by rw [hh0, (hall d hd).2.2]⟩)
    refine ⟨⟨hdr, ((d0 :: rest).map (fun d : DDS => d.slice_bin_list)).flatten⟩, ?_, rfl,
      harrc, hdepc⟩
    rw [hstep, hcheck]

/-- Witness for C7: the size-mismatch case on containers differing in
width, the format-mismatch case on containers differing in DXGI format,
and the success case on two agreeing containers assembled as a depth-2
volume; the first container is 4x4 with a defined `get_bpp`. -/
theorem c7_assemble_spec_witness :
    DDS.assemble [c7A, c7W] true =
      .error (.runtimeError "Failed to assemble dds files. Texture sizes should be the same") ∧
    DDS.assemble [c7A, c7F] true =
      .error (.runtimeError "Failed to assemble dds files. DXGI formats should be the same") ∧
    ∃ dd, DDS.assemble [c7A, c7B] false = .ok dd ∧
      dd.slice_bin_list = (([c7A, c7B]).map (fun d => d.slice_bin_list)).flatten ∧
      (false = true → dd.header.get_array_size = ([c7A, c7B]).length) ∧
      (false = false → dd.header.data.depth = ([c7A, c7B]).length) := by
  refine ⟨?_, ?_, ?_⟩
  · exact (c7_assemble_spec c7A [c7W] true 1 (by decide)).1 (by decide)
      ⟨c7W, by decide, by decide⟩
  · exact (c7_assemble_spec c7A [c7F] true 1 (by decide)).2.1 (by decide)
      ⟨c7F, by decide, by decide⟩
  · exact (c7_assemble_spec c7A [c7B] false 1 (by decide)).2.2 (by decide)

/-- C2: for a non-cube container with `depth = 1`, `array_size = N > 1`,
one slice buffer per array element, and a header whose bits-per-pixel
derivation is defined (nonzero width and height — otherwise Python's
`disassemble()` raises `ZeroDivisionError` inside `get_bpp`),
disassembling succeeds and assembling the resulting list with
`as_array = true` succeeds, yielding a container whose slice payloads
equal the original ones in the original order and whose header carries
`array_size = N` again. -/
theorem c2_disassemble_assemble_inverse (c : DDS) (N : Nat)
    (hdepth : c.header.data.depth = 1)
    (hcube : c.header.is_cube = false)
    (harr : c.header.get_array_size = N)
    (hN : 1 < N)
    (hlen : c.slice_bin_list.length = N)
    (hw : c.header.data.width ≠ 0)
    (hh : c.header.data.height ≠ 0) :
    ∃ l d, c.get_disassembled_dds_list = .ok l ∧
      DDS.assemble l true = .ok d ∧
      d.slice_bin_list = c.slice_bin_list ∧
      d.header.get_array_size = N := by
  obtain ⟨k, rfl⟩ : ∃ k, N = k + 1 := ⟨N - 1, by omega⟩
  obtain ⟨bpp0, hbpp0⟩ := DDSHeader.get_bpp_ok_of_pos c.header hw hh
  obtain ⟨h2, hup, _, hw2, hh2, _, _, _⟩ := DDSHeader.update_ok c.header 1 1 bpp0 hbpp0
  have hdis : c.header.disassemble = .ok h2 := hup
  have hlist : c.get_disassembled_dds_list = .ok ((List.range (k + 1)).map
      (fun i => ⟨h2, (c.slice_bin_list.drop i).take 1⟩)) := by
    unfold DDS.get_disassembled_dds_list
    rw [hdepth, harr, hcube, hdis]
    simp only [Bool.false_eq_true, if_false, Nat.mul_zero, Nat.add_zero, Nat.one_mul,
      Nat.mul_one]
  have hsplit : (List.range (k + 1)).map
      (fun i => (⟨h2, (c.slice_bin_list.drop i).take 1⟩ : DDS)) =
      (⟨h2, c.slice_bin_list.take 1⟩ : DDS) ::
      (List.range k).map
        (fun i => (⟨h2, (c.slice_bin_list.drop (i + 1)).take 1⟩ : DDS)) := by
    rw [List.range_succ_eq_map, List.map_cons, List.map_map]
    rfl
  obtain ⟨bpp2, hbpp2⟩ := DDSHeader.get_bpp_ok_of_pos h2 (by rw [hw2]; exact hw)
    (by rw [hh2]; exact hh)
  obtain ⟨hdr, hok, harrc, _⟩ := assemble_ok_of_all_match
    ⟨h2, c.slice_bin_list.take 1⟩
    ((List.range k).map
      (fun i => (⟨h2, (c.slice_bin_list.drop (i + 1)).take 1⟩ : DDS)))
    true bpp2 hbpp2
    (by
      intro d hd
      simp only [List.mem_map, List.mem_range] at hd
      obtain ⟨i, _, rfl⟩ := hd
      exact ⟨rfl, rfl, rfl⟩)
  refine ⟨(List.range (k + 1)).map (fun i => ⟨h2, (c.slice_bin_list.drop i).take 1⟩),
    ⟨hdr, (((⟨h2, c.slice_bin_list.take 1⟩ : DDS) ::
      (List.range k).map
        (fun i => (⟨h2, (c.slice_bin_list.drop (i + 1)).take 1⟩ : DDS))).map
      (fun d : DDS => d.slice_bin_list)).flatten⟩,
    hlist, ?_, ?_, ?_⟩
  · rw [hsplit]
    exact hok
  · dsimp only
    rw [← hsplit, List.map_map]
    have hcomp : ((fun d : DDS => d.slice_bin_list) ∘
        (fun i => (⟨h2, (c.slice_bin_list.drop i).take 1⟩ : DDS))) =
        fun i => (c.slice_bin_list.drop i).take 1 := rfl
    rw [hcomp, ← hlen]
    exact flatten_singleton_chunks c.slice_bin_list
  · dsimp only
    rw [harrc rfl]
    simp [List.length_map, List.length_range]

/-- Witness for C2 at a concrete 2-element 4x4 `B8G8R8A8_UNORM` texture
array with one 1-byte slice per element. -/
theorem c2_disassemble_assemble_inverse_witness :
    ∃ l d, c2DDS.get_disassembled_dds_list = .ok l ∧
      DDS.assemble l true = .ok d ∧
      d.slice_bin_list = c2DDS.slice_bin_list ∧
      d.header.get_array_size = 2 :=
  c2_disassemble_assemble_inverse c2DDS 2 (by decide) (by decide) (by decide) (by decide)
    (by decide) (by decide) (by decide)

theorem DDS.load_ok (img : FileImage) (head : DDSHeader)
    (hread : DDSHeader.read img = .ok head)
    (hn : head.get_num_slices ≠ 0) :
    DDS.load img = .ok ⟨head, readChunks img.payload
      (img.payload.length / head.get_num_slices) head.get_num_slices⟩ := by
  unfold DDS.load
  rw [hread]
  show (if head.get_num_slices = 0 then (Except.error PyError.zeroDivisionError : Except PyError DDS)
    else .ok ⟨head, readChunks img.payload (img.payload.length / head.get_num_slices)
      head.get_num_slices⟩) = _
  rw [if_neg hn]

/-- C1: for every valid container (consistent header and slice list),
saving and re-loading yields a container with the same resolved DXGI
format, width, height, depth, mip count, array size, cube and volume
flags, and byte-identical slice payloads in the same order. -/
theorem c1_round_trip (c : DDS) (hvalid : c.isValidContainer) :
    ∃ c2, DDS.load (DDS.save c) = .ok c2 ∧
      c2.header.dxgi_format = c.header.dxgi_format ∧
      c2.header.data.width = c.header.data.width ∧
      c2.header.data.height = c.header.data.height ∧
      c2.header.data.depth = c.header.data.depth ∧
      c2.header.data.mipmap_num = c.header.data.mipmap_num ∧
      c2.header.get_array_size = c.header.get_array_size ∧
      c2.header.is_cube = c.header.is_cube ∧
      c2.header.is_3d = c.header.is_3d ∧
      c2.slice_bin_list = c.slice_bin_list := by
  obtain ⟨hmagic, hsize, hmip, hdx10c, hlegc, hpos, hlen, L, hL⟩ := hvalid
  have hmipc : c.header.data.mipmap_num +
      (if c.header.data.mipmap_num = 0 then 1 else 0) = c.header.data.mipmap_num := by
    rw [if_neg (by omega), Nat.add_zero]
  have hflat : c.slice_bin_list.flatten.length = c.header.get_num_slices * L := by
    rw [flatten_length_const c.slice_bin_list L hL, hlen]
  have hchunks : readChunks c.slice_bin_list.flatten L c.header.get_num_slices
      = c.slice_bin_list := by
    rw [← hlen]
    exact readChunks_flatten_eq c.slice_bin_list L hL
  cases hdx : c.header.data.pixel_format.is_dx10 with
  | true =>
    obtain ⟨hget, hdim⟩ := hdx10c hdx
    have hread := DDSHeader.read_dx10 (DDS.save c) c.header.dxgi_format hdx hget hmagic hsize hdim
    have hns : (⟨{ (DDS.save c).data with
        mipmap_num := (DDS.save c).data.mipmap_num +
          (if (DDS.save c).data.mipmap_num = 0 then 1 else 0) },
        (DDS.save c).dx10, c.header.dxgi_format⟩ : DDSHeader).get_num_slices =
        c.header.get_num_slices := rfl
    have hload := DDS.load_ok (DDS.save c) _ hread (by rw [hns]; omega)
    rw [hns] at hload
    have hdivL : (DDS.save c).payload.length / c.header.get_num_slices = L := by
      show c.slice_bin_list.flatten.length / c.header.get_num_slices = L
      rw [hflat]
      exact Nat.mul_div_cancel_left L hpos
    rw [hdivL] at hload
    have hpay : readChunks (DDS.save c).payload L c.header.get_num_slices
        = c.slice_bin_list := hchunks
    rw [hpay] at hload
    refine ⟨_, hload, rfl, rfl, rfl, rfl, ?_, rfl, rfl, rfl, rfl⟩
    exact hmipc
  | false =>
    obtain ⟨hget, harr1⟩ := hlegc hdx
    have hread := DDSHeader.read_legacy (DDS.save c) c.header.dxgi_format hdx hget hmagic hsize
    have hns : (⟨{ (DDS.save c).data with
        mipmap_num := (DDS.save c).data.mipmap_num +
          (if (DDS.save c).data.mipmap_num = 0 then 1 else 0) },
        DX10Header.update c.header.dxgi_format (DDS_CAPS2.is_cube (DDS.save c).data.caps2)
          ((DDS.save c).data.depth > 1) 1,
        c.header.dxgi_format⟩ : DDSHeader).get_num_slices = c.header.get_num_slices := by
      show 1 * c.header.data.depth *
          (1 + (if DDS_CAPS2.is_cube c.header.data.caps2 then 1 else 0) * 5) =
        c.header.get_array_size * c.header.data.depth *
          (1 + (if DDS_CAPS2.is_cube c.header.data.caps2 then 1 else 0) * 5)
      rw [harr1]
    have hload := DDS.load_ok (DDS.save c) _ hread (by rw [hns]; omega)
    rw [hns] at hload
    have hdivL : (DDS.save c).payload.length / c.header.get_num_slices = L := by
      show c.slice_bin_list.flatten.length / c.header.get_num_slices = L
      rw [hflat]
      exact Nat.mul_div_cancel_left L hpos
    rw [hdivL] at hload
    have hpay : readChunks (DDS.save c).payload L c.header.get_num_slices
        = c.slice_bin_list := hchunks
    rw [hpay] at hload
    refine ⟨_, hload, rfl, rfl, rfl, rfl, ?_, ?_, rfl, rfl, rfl⟩
    · exact hmipc
    · show (1 : Nat) = c.header.get_array_size
      exact harr1.symm

/-- Witness for C1 at a concrete valid 4x4 legacy `DXT1` container with a
single 8-byte slice. -/
theorem c1_round_trip_witness :
    ∃ c2, DDS.load (DDS.save c1DDS) = .ok c2 ∧
      c2.header.dxgi_format = c1DDS.header.dxgi_format ∧
      c2.header.data.width = c1DDS.header.data.width ∧
      c2.header.data.height = c1DDS.header.data.height ∧
      c2.header.data.depth = c1DDS.header.data.depth ∧
      c2.header.data.mipmap_num = c1DDS.header.data.mipmap_num ∧
      c2.header.get_array_size = c1DDS.header.get_array_size ∧
      c2.header.is_cube = c1DDS.header.is_cube ∧
      c2.header.is_3d = c1DDS.header.is_3d ∧
      c2.slice_bin_list = c1DDS.slice_bin_list :=
  c1_round_trip c1DDS
    ⟨rfl, rfl, by decide, fun h => absurd h (by decide), fun _ => ⟨by decide, by decide⟩,
     by decide, by decide, 8, by decide⟩
